import Mathlib

/-!
Shallow embedding of the gameboy-rs emulator core (src/src/gameboy) and proofs
about it.  Machine integers (u8/u16/usize) are modelled as `Nat` with explicit
`% 256` / `% 65536` wherever the Rust code wraps (wrapping_add/sub, shifts, or
release-mode overflow of `+`/`-` at sites where the claims exercise them).
Byte stores (`Vec<u8>`) are modelled as functions `Nat → Nat` together with an
explicit length where out-of-bounds indexing (a Rust panic) matters; panics,
`todo!()` and failed `expect` are modelled as `none` of an `Option` result.
-/

namespace GB

/-- Functional update of a byte store, mirroring `vec[i] = v`. -/
def updFn (f : Nat → Nat) (i v : Nat) : Nat → Nat :=
  fun j => if j = i then v else f j

/-! ## utils.rs -/

/-- `get_bit(value, bit)` from utils.rs: `value & (1 << bit) != 0`. -/
def getBit (value bit : Nat) : Bool :=
  value &&& ((1 <<< bit) % 256) ≠ 0

/-- `set_bit_mut` from utils.rs.  Note the clear branch is `*value &= !1 << bit`,
i.e. the u8 mask `0xFE << bit` (truncated to 8 bits), not `!(1 << bit)`. -/
def setBitMut (value bit : Nat) (bitValue : Bool) : Nat :=
  if bitValue then value ||| ((1 <<< bit) % 256)
  else value &&& ((0xFE <<< bit) % 256)

/-- `set_bit` from utils.rs: sets with `|`, clears with `& !(1 << bit)`. -/
def setBit (value bit : Nat) (bitValue : Bool) : Nat :=
  if bitValue then value ||| ((1 <<< bit) % 256)
  else value &&& (255 ^^^ ((1 <<< bit) % 256))

/-! ## cartridge.rs -/

inductive BankingMode where
  | useRom
  | useRam
deriving DecidableEq

structure Mbc1 where
  romData : Nat → Nat
  romLen : Nat
  ramData : Nat → Nat
  /-- `vec![0x00; 0x2000 * 4]` -/
  ramLen : Nat
  romBank : Nat
  ramBank : Nat
  ramEnabled : Bool
  bankingMode : BankingMode

/-- `MBC1::new`; the ROM bytes and length come from the loaded file. -/
def Mbc1.new (romData : Nat → Nat) (romLen : Nat) : Mbc1 :=
  { romData := romData
    romLen := romLen
    ramData := fun _ => 0x00
    ramLen := 0x2000 * 4
    romBank := 0x01
    ramBank := 0x00
    ramEnabled := false
    bankingMode := .useRom }

inductive Cartridge where
  | romOnly (romData : Nat → Nat) (romLen : Nat)
  | mbc1 (s : Mbc1)

/-- `Cartridge::read`.  RomOnly indexes the file directly; MBC1 dispatches on
the address ranges of cartridge.rs.  `none` models an index-out-of-bounds
panic or the `todo!` arm for unmapped addresses. -/
def Cartridge.read : Cartridge → Nat → Option Nat
  | .romOnly romData romLen, addr =>
      if addr < romLen then some (romData addr) else none
  | .mbc1 s, addr =>
      if addr ≤ 0x3FFF then
        if addr < s.romLen then some (s.romData addr) else none
      else if addr ≤ 0x7FFF then
        -- `0x4000 * (rom_bank as u16)` is a u16 multiplication.
        let normalizedAddr := addr - 0x4000
        let bankOffsetAddr := (0x4000 * s.romBank) % 65536
        let a := (bankOffsetAddr + normalizedAddr) % 65536
        if a < s.romLen then some (s.romData a) else none
      else if 0xA000 ≤ addr ∧ addr ≤ 0xBFFF then
        if ¬ s.ramEnabled then some 0xFF
        else
          -- `0x4000 * self.ram_bank as usize` (usize, no truncation).
          let normalizedAddr := addr - 0xA000
          let bankOffsetAddr := 0x4000 * s.ramBank
          let a := bankOffsetAddr + normalizedAddr
          if a < s.ramLen then some (s.ramData a) else none
      else none

/-- `Cartridge::write`.  RomOnly only logs; MBC1 updates its control registers
or external RAM.  `none` models the `panic!` for a BANK1 value above 0x1F, an
out-of-bounds RAM index, and the `todo!` arm. -/
def Cartridge.write : Cartridge → Nat → Nat → Option Cartridge
  | .romOnly romData romLen, _, _ => some (.romOnly romData romLen)
  | .mbc1 s, addr, value =>
      if addr ≤ 0x1FFF then
        some (.mbc1 { s with ramEnabled := value &&& 0xF = 0xA })
      else if addr ≤ 0x3FFF then
        if value > 0x1F then none
        else
          let fixedValue :=
            if value = 0x0 ∨ value = 0x20 ∨ value = 0x40 ∨ value = 0x60
            then value + 1 else value
          some (.mbc1 { s with romBank := fixedValue })
      else if addr ≤ 0x5FFF then
        match s.bankingMode with
        | .useRom =>
            let rb := setBitMut s.romBank 5 (getBit value 0)
            let rb := setBitMut rb 6 (getBit value 1)
            some (.mbc1 { s with romBank := rb })
        | .useRam => some (.mbc1 { s with ramBank := value &&& 0b11 })
      else if addr ≤ 0x7FFF then
        some (.mbc1 { s with bankingMode := if value = 0 then .useRom else .useRam })
      else if 0xA000 ≤ addr ∧ addr ≤ 0xBFFF then
        if ¬ s.ramEnabled then some (.mbc1 s)
        else
          let normalizedAddr := addr - 0xA000
          let bankOffsetAddr := 0x4000 * s.ramBank
          let a := bankOffsetAddr + normalizedAddr
          if a < s.ramLen then some (.mbc1 { s with ramData := updFn s.ramData a value })
          else none
      else none

/-! ## mmu.rs: Joypad -/

structure Joypad where
  up : Bool
  down : Bool
  left : Bool
  right : Bool
  a : Bool
  b : Bool
  select : Bool
  start : Bool
  selectButtons : Bool
  directionButtons : Bool
deriving DecidableEq

def Joypad.new : Joypad :=
  { up := false, down := false, left := false, right := false
    a := false, b := false, select := false, start := false
    selectButtons := false, directionButtons := false }

/-- `Joypad::read`, with the `set_bit_mut` calls applied in source order. -/
def Joypad.read (j : Joypad) : Nat :=
  let base : Nat := 0xF
  let base :=
    if j.directionButtons then
      let base := setBitMut base 0 (!j.right)
      let base := setBitMut base 1 (!j.left)
      let base := setBitMut base 2 (!j.up)
      setBitMut base 3 (!j.down)
    else base
  let base :=
    if j.selectButtons then
      let base := setBitMut base 0 (!j.a)
      let base := setBitMut base 1 (!j.b)
      let base := setBitMut base 2 (!j.select)
      setBitMut base 3 (!j.start)
    else base
  let base := setBitMut base 4 (!j.directionButtons)
  setBitMut base 5 (!j.selectButtons)

/-- `Joypad::write`: the two selector bits, inverted. -/
def Joypad.write (j : Joypad) (value : Nat) : Joypad :=
  { j with directionButtons := !getBit value 4, selectButtons := !getBit value 5 }

/-! ## mmu.rs: Timer -/

structure Timer where
  divider : Nat
  timerCounter : Nat
  timerModulo : Nat
  timerControl : Nat
  clockCounter : Nat
deriving DecidableEq

def Timer.new : Timer :=
  { divider := 0, timerCounter := 0, timerModulo := 0, timerControl := 0
    clockCounter := 0 }

def Timer.isTimerEnabled (t : Timer) : Bool :=
  getBit t.timerControl 2

/-- `Timer::get_clock_select`, as the divisor value of the `ClockSelect` enum. -/
def Timer.getClockSelect (t : Timer) : Nat :=
  match t.timerControl &&& 0b11 with
  | 0b00 => 1024
  | 0b01 => 16
  | 0b10 => 64
  | _ => 256

/-- `Timer::increment_timer_counter` (u8 wrap-around feeds TMA back in). -/
def Timer.incrementTimerCounter (t : Timer) : Timer × Bool :=
  let tc := (t.timerCounter + 1) % 256
  if tc = 0x00 then ({ t with timerCounter := t.timerModulo }, true)
  else ({ t with timerCounter := tc }, false)

def Timer.tickClock (t : Timer) : Timer × Bool :=
  let t := { t with clockCounter := t.clockCounter + 1 }
  let clockSelectDiv := t.getClockSelect
  if t.clockCounter < clockSelectDiv then (t, false)
  else
    Timer.incrementTimerCounter { t with clockCounter := t.clockCounter - clockSelectDiv }

/-- One iteration of the T-cycle loop body of `Timer::maybe_tick_cycles`. -/
def Timer.stepTCycle (t : Timer) : Timer × Bool :=
  let t := { t with divider := (t.divider + 1) % 65536 }
  if t.isTimerEnabled then t.tickClock else (t, false)

/-- `Timer::maybe_tick_cycles`: loops `elapsed_cycles * 4` T-cycles (the
multiplication is on u8), or-ing the interrupt flags of each iteration. -/
def Timer.maybeTickCycles (t : Timer) (elapsedCycles : Nat) : Timer × Bool :=
  (List.range ((elapsedCycles * 4) % 256)).foldl
    (fun acc _ =>
      let (t', fire) := acc.1.stepTCycle
      (t', acc.2 || fire))
    (t, false)

/-! ## mmu.rs: Serial -/

structure Serial where
  transferData : Nat
  printSerial : Bool
deriving DecidableEq

def Serial.new (printSerial : Bool) : Serial :=
  { transferData := 0, printSerial := printSerial }

/-- `Serial::read`; reading 0xFF02 is `todo!`, other addresses panic. -/
def Serial.read (s : Serial) (addr : Nat) : Option Nat :=
  if addr = 0xFF01 then some s.transferData else none

/-- `Serial::write`; the 0xFF02 arm only prints to the host, leaving the
  register state unchanged. -/
def Serial.write (s : Serial) (addr value : Nat) : Option Serial :=
  if addr = 0xFF01 then some { s with transferData := value }
  else if addr = 0xFF02 then some s
  else none

/-! ## common/framebuffer.rs -/

structure Rgb where
  r : Nat
  g : Nat
  b : Nat
deriving DecidableEq

def Rgb.newGray (shade : Nat) : Rgb :=
  ⟨shade, shade, shade⟩

def Rgb.white : Rgb :=
  ⟨0xFF, 0xFF, 0xFF⟩

/-- The framebuffer's flat `Vec` of width×height RGB triples, keyed here by
pixel coordinates (the source index `y * width + x` is in bijection with
`(x, y)` at the in-bounds call sites, where `x < 160` is always guarded). -/
structure FrameBuffer where
  data : Nat → Nat → Rgb

def FrameBuffer.new : FrameBuffer :=
  ⟨fun _ _ => Rgb.white⟩

def FrameBuffer.getPixel (fb : FrameBuffer) (x y : Nat) : Rgb :=
  fb.data x y

def FrameBuffer.setPixel (fb : FrameBuffer) (x y : Nat) (color : Rgb) : FrameBuffer :=
  ⟨fun x' y' => if x' = x then if y' = y then color else fb.data x' y' else fb.data x' y'⟩

/-! ## video.rs -/

def SCREEN_WIDTH : Nat := 160
def SCREEN_HEIGHT : Nat := 144
def OAM_START : Nat := 0xFE00
def TILE_BYTE_COUNT : Nat := 16
def SPRITE_TILE_START : Nat := 0x8000
def DOTS_PER_MODE2 : Nat := 80
def DOTS_PER_MODE3 : Nat := 172
def DOTS_PER_MODE0 : Nat := 204
def DOTS_PER_MODE1_ROW : Nat := 456

inductive VideoMode where
  | mode2OamScan
  | mode3DrawPixels
  | mode0HorizontalBlank
  | mode1VerticalBlank
deriving DecidableEq

/-- The numeric value of the `VideoMode` discriminants. -/
def VideoMode.toNat : VideoMode → Nat
  | .mode2OamScan => 2
  | .mode3DrawPixels => 3
  | .mode0HorizontalBlank => 0
  | .mode1VerticalBlank => 1

inductive PaletteColor where
  | white
  | lightGray
  | darkGray
  | black
deriving DecidableEq

def PaletteColor.toNat : PaletteColor → Nat
  | .white => 0
  | .lightGray => 1
  | .darkGray => 2
  | .black => 3

/-- `map_palette_color`; its panic arm is dead because every caller masks the
value to two bits first. -/
def mapPaletteColor (value : Nat) : PaletteColor :=
  match value with
  | 0 => .white
  | 1 => .lightGray
  | 2 => .darkGray
  | _ => .black

structure Palette where
  id0 : PaletteColor
  id1 : PaletteColor
  id2 : PaletteColor
  id3 : PaletteColor
deriving DecidableEq

def Palette.new : Palette :=
  { id0 := .white, id1 := .white, id2 := .white, id3 := .white }

def Palette.writeAsByte (value : Nat) : Palette :=
  { id0 := mapPaletteColor ((value &&& 0b00000011) >>> 0)
    id1 := mapPaletteColor ((value &&& 0b00001100) >>> 2)
    id2 := mapPaletteColor ((value &&& 0b00110000) >>> 4)
    id3 := mapPaletteColor ((value &&& 0b11000000) >>> 6) }

def Palette.readAsByte (p : Palette) : Nat :=
  (p.id3.toNat <<< 6) ||| (p.id2.toNat <<< 4) ||| (p.id1.toNat <<< 2) ||| p.id0.toNat

/-- `resolve_for_bg_from_color_id`; the panic arm is dead (ids are 2 bits). -/
def Palette.resolveForBgFromColorId (p : Palette) (colorId : Nat) : PaletteColor :=
  match colorId with
  | 0 => p.id0
  | 1 => p.id1
  | 2 => p.id2
  | _ => p.id3

/-- `resolve_for_sprite_from_color_id`: color id 0 is transparent. -/
def Palette.resolveForSpriteFromColorId (p : Palette) (colorId : Nat) : Option PaletteColor :=
  match colorId with
  | 0 => none
  | 1 => some p.id1
  | 2 => some p.id2
  | _ => some p.id3

def toScreenColor : PaletteColor → Rgb
  | .white => Rgb.newGray 255
  | .lightGray => Rgb.newGray 160
  | .darkGray => Rgb.newGray 90
  | .black => Rgb.newGray 0

structure SpriteObject where
  yPos : Nat
  xPos : Nat
  tileIndex : Nat
  attributes : Nat
  index : Nat
deriving DecidableEq

def SpriteObject.priority (s : SpriteObject) : Bool := getBit s.attributes 7
def SpriteObject.yFlip (s : SpriteObject) : Bool := getBit s.attributes 6
def SpriteObject.xFlip (s : SpriteObject) : Bool := getBit s.attributes 5
/-- `dmg_palette`: `true` selects OBP1. -/
def SpriteObject.usesObp1 (s : SpriteObject) : Bool := getBit s.attributes 4

/-- `SpriteObject::resolve_row_in_sprite`.  The u8 additions here cannot wrap
at the call sites (`line ≤ 153`, and `y_pos + height` is only reached when
`y_pos ≤ line + 16 ≤ 169`). -/
def SpriteObject.resolveRowInSprite (s : SpriteObject) (line heightPixels : Nat) :
    Option Nat :=
  let lineWithOffset := line + 16
  if lineWithOffset < s.yPos then none
  else if lineWithOffset ≥ s.yPos + heightPixels then none
  else
    let rowInSprite := lineWithOffset - s.yPos
    some (if s.yFlip then heightPixels - rowInSprite else rowInSprite)

inductive VideoInterrupt where
  | stat
  | vblank
deriving DecidableEq

structure Video where
  vram : Nat → Nat
  oam : Nat → Nat
  lyc : Nat
  /-- `LcdStatus::data` (the writable STAT bits). -/
  lcdStatusData : Nat
  /-- `LcdStatus::ppu_mode`, stored separately from `data` in the source. -/
  ppuMode : VideoMode
  lcdControl : Nat
  scy : Nat
  scx : Nat
  bgPalette : Palette
  objPalette0 : Palette
  objPalette1 : Palette
  windowY : Nat
  windowX : Nat
  currentLine : Nat
  dotInCurrentMode : Nat
  frameBuffer : FrameBuffer
  isFrameReady : Bool

def Video.new : Video :=
  { vram := fun _ => 0x00
    oam := fun _ => 0x00
    lcdStatusData := 0
    ppuMode := .mode2OamScan
    lcdControl := 0
    lyc := 0
    scy := 0
    scx := 0
    bgPalette := Palette.new
    objPalette0 := Palette.new
    objPalette1 := Palette.new
    windowY := 0
    windowX := 0
    currentLine := 0
    dotInCurrentMode := 0
    frameBuffer := FrameBuffer.new
    isFrameReady := true }

def Video.readVram (v : Video) (addr : Nat) : Nat :=
  v.vram (addr - 0x8000)

def Video.writeVram (v : Video) (addr value : Nat) : Video :=
  { v with vram := updFn v.vram (addr - 0x8000) value }

def Video.readOam (v : Video) (addr : Nat) : Nat :=
  v.oam (addr - 0xFE00)

def Video.writeOam (v : Video) (addr value : Nat) : Video :=
  { v with oam := updFn v.oam (addr - 0xFE00) value }

/-- `LcdStatus::read_as_byte`. -/
def Video.lcdStatusReadAsByte (v : Video) : Nat :=
  v.lcdStatusData ||| v.ppuMode.toNat

/-- `Video::try_take_frame`: the latch-clearing accessor. -/
def Video.tryTakeFrame (v : Video) : Video × Option FrameBuffer :=
  if ¬ v.isFrameReady then (v, none)
  else ({ v with isFrameReady := false }, some v.frameBuffer)

def Video.readSpriteObject (v : Video) (index : Nat) : SpriteObject :=
  let oamAddr := OAM_START + index * 4
  { yPos := v.readOam (oamAddr + 0)
    xPos := v.readOam (oamAddr + 1)
    tileIndex := v.readOam (oamAddr + 2)
    attributes := v.readOam (oamAddr + 3)
    index := index }

def Video.resolveSpriteRowAddr (sprite : SpriteObject) (row : Nat) : Nat :=
  SPRITE_TILE_START + sprite.tileIndex * TILE_BYTE_COUNT + row * 2

/-- `Video::resolve_tile_index` (background map lookup). -/
def Video.resolveTileIndex (v : Video) (x y : Nat) : Nat :=
  let scrolledX := (v.scx + x) % 256
  let scrolledY := (v.scy + y) % 256
  let tileX := scrolledX / 8
  let tileY := scrolledY / 8
  let tileAddrOffset := tileY * 32 + tileX
  let tileMapStartAddr := if getBit v.lcdControl 3 then 0x9C00 else 0x9800
  v.readVram (tileMapStartAddr + tileAddrOffset)

/-- `Video::resolve_tile_addr`: unsigned (0x8000) or signed (0x9000) tile
data addressing; the i32 arithmetic and the `as u16` cast are mirrored on
`Int` with the final truncation to 16 bits. -/
def Video.resolveTileAddr (v : Video) (tileIndex : Nat) : Nat :=
  if getBit v.lcdControl 4 then 0x8000 + TILE_BYTE_COUNT * tileIndex
  else
    let signedTileIndex : Int := if tileIndex < 128 then tileIndex else (tileIndex : Int) - 256
    ((0x9000 + (TILE_BYTE_COUNT : Int) * signedTileIndex) % 65536).toNat

/-- `Video::read_color_id` (the `assert!(x_in_tile < 8)` holds at every call
site, where the value is masked to 3 bits or bounded by 7). -/
def Video.readColorId (v : Video) (tileRowAddr xInTile : Nat) : Nat :=
  let firstByte := v.readVram tileRowAddr
  let secondByte := v.readVram ((tileRowAddr + 1) % 65536)
  let lsBitColorId := if getBit firstByte (7 - xInTile) then 1 else 0
  let msBitColorId := if getBit secondByte (7 - xInTile) then 1 else 0
  msBitColorId <<< 1 ||| lsBitColorId

def Video.readBgTilePixelColor (v : Video) (tileRowAddr xInTile : Nat)
    (palette : Palette) : PaletteColor :=
  palette.resolveForBgFromColorId (v.readColorId tileRowAddr xInTile)

/-- One iteration of the background loop body of `draw_bg_for_current_line`. -/
def Video.drawBgPixel (v : Video) (line x : Nat) : Video :=
  let y := line
  let tileIndex := v.resolveTileIndex x y
  let tileStartAddr := v.resolveTileAddr tileIndex
  let xInTile := ((v.scx + x) % 256) % 8
  let yInTile := ((v.scy + y) % 256) % 8
  let tileRowAddr := tileStartAddr + yInTile * 2
  let color := v.readBgTilePixelColor tileRowAddr xInTile v.bgPalette
  { v with frameBuffer := v.frameBuffer.setPixel x y (toScreenColor color) }

def Video.drawBgForCurrentLine (v : Video) (line : Nat) : Video :=
  (List.range SCREEN_WIDTH).foldl (fun acc x => acc.drawBgPixel line x) v

/-- `Video::draw_window_for_current_line` is `todo!("Draw window")`. -/
def Video.drawWindowForCurrentLine (_v : Video) : Option Video :=
  none

/-- Insertion of one sprite into a list already sorted by
`(x_pos, OAM index)`; together with `sortSpritesByKey` below this models the
stable `sort_by_key` call. -/
def insertSpriteByKey (a : SpriteObject × Nat) :
    List (SpriteObject × Nat) → List (SpriteObject × Nat)
  | [] => [a]
  | b :: rest =>
      if a.1.xPos < b.1.xPos ∨ (a.1.xPos = b.1.xPos ∧ a.1.index < b.1.index) then
        a :: b :: rest
      else b :: insertSpriteByKey a rest

/-- Stable sort by `(x_pos, OAM index)` (insertion sort; `Vec::sort_by_key`
is stable, and insertion with a strict comparison preserves input order of
equal keys). -/
def sortSpritesByKey (l : List (SpriteObject × Nat)) : List (SpriteObject × Nat) :=
  l.foldr insertSpriteByKey []

/-- One iteration of the per-pixel sprite loop body in
`draw_sprites_for_current_line` (pixel `currentPixel` of the 8-pixel row). -/
def Video.spritePixelStep (v : Video) (line : Nat) (sprite : SpriteObject)
    (spriteRowStartAddr xStart currentPixel : Nat) : Video :=
  let xOnScreen := (xStart + currentPixel) % 256
  if xOnScreen ≥ SCREEN_WIDTH then v
  else
    let indexInSprite := if sprite.xFlip then 7 - currentPixel else currentPixel
    let colorId := v.readColorId spriteRowStartAddr indexInSprite
    let palette := if sprite.usesObp1 then v.objPalette1 else v.objPalette0
    match palette.resolveForSpriteFromColorId colorId with
    | none => v
    | some color =>
        let bgHasPriority := sprite.priority
        if ¬ bgHasPriority ∨ v.frameBuffer.getPixel xOnScreen line = toScreenColor .white
        then { v with frameBuffer := v.frameBuffer.setPixel xOnScreen line (toScreenColor color) }
        else v

/-- The per-sprite loop body: 8 pixels starting at `x_pos - 8` (wrapping). -/
def Video.drawSprite (v : Video) (line : Nat) (p : SpriteObject × Nat) : Video :=
  let spriteRowStartAddr := Video.resolveSpriteRowAddr p.1 p.2
  let xStart := (p.1.xPos + 256 - 8) % 256
  (List.range 8).foldl
    (fun acc currentPixel => acc.spritePixelStep line p.1 spriteRowStartAddr xStart currentPixel)
    v

/-- `Video::draw_sprites_for_current_line`. -/
def Video.drawSpritesForCurrentLine (v : Video) (line : Nat) : Video :=
  let heightPixels := if getBit v.lcdControl 2 then 16 else 8
  let visibleSpritesWithRow :=
    ((List.range 40).map v.readSpriteObject).filterMap
      (fun sprite => (sprite.resolveRowInSprite line heightPixels).map (fun row => (sprite, row)))
  let sorted := sortSpritesByKey visibleSpritesWithRow
  (sorted.take 10).foldl (fun acc p => acc.drawSprite line p) v

/-- `Video::draw_scanline` (run once at the Draw→HBlank transition); `none`
propagates the unimplemented window drawing. -/
def Video.drawScanline (v : Video) (line : Nat) : Option Video :=
  if ¬ getBit v.lcdControl 7 then some v
  else do
    let v ←
      if getBit v.lcdControl 0 then do
        let v := v.drawBgForCurrentLine line
        if getBit v.lcdControl 5 then v.drawWindowForCurrentLine else some v
      else some v
    if getBit v.lcdControl 1 then some (v.drawSpritesForCurrentLine line) else some v

/-- `Video::read_register`; `none` models the DMA-register panic and the
`todo!` arm for unhandled registers. -/
def Video.readRegister (v : Video) (addr : Nat) : Option Nat :=
  if addr = 0xFF40 then some v.lcdControl
  else if addr = 0xFF41 then some v.lcdStatusReadAsByte
  else if addr = 0xFF42 then some v.scy
  else if addr = 0xFF43 then some v.scx
  else if addr = 0xFF44 then
    some (if getBit v.lcdControl 7 then v.currentLine else 0)
  else if addr = 0xFF45 then some v.lyc
  else if addr = 0xFF46 then none
  else if addr = 0xFF47 then some v.bgPalette.readAsByte
  else if addr = 0xFF48 then some v.objPalette0.readAsByte
  else if addr = 0xFF49 then some v.objPalette1.readAsByte
  else if addr = 0xFF4A then some v.windowY
  else if addr = 0xFF4B then some v.windowX
  else none

/-- `Video::write_register`; `none` models the LY-write and DMA panics and
the `todo!` arm. -/
def Video.writeRegister (v : Video) (addr value : Nat) : Option Video :=
  if addr = 0xFF40 then some { v with lcdControl := value }
  else if addr = 0xFF41 then some { v with lcdStatusData := value &&& 0b01111000 }
  else if addr = 0xFF42 then some { v with scy := value }
  else if addr = 0xFF43 then some { v with scx := value }
  else if addr = 0xFF44 then none
  else if addr = 0xFF45 then some { v with lyc := value }
  else if addr = 0xFF46 then none
  else if addr = 0xFF47 then some { v with bgPalette := Palette.writeAsByte value }
  else if addr = 0xFF48 then some { v with objPalette0 := Palette.writeAsByte value }
  else if addr = 0xFF49 then some { v with objPalette1 := Palette.writeAsByte value }
  else if addr = 0xFF4A then some { v with windowY := value }
  else if addr = 0xFF4B then some { v with windowX := value }
  else none

/-- `Video::tick`: one dot of the PPU mode state machine.  Returns the new
state and the video interrupts raised during this dot, in push order. -/
def Video.tick (v0 : Video) : Option (Video × List VideoInterrupt) := do
  let v := { v0 with dotInCurrentMode := v0.dotInCurrentMode + 1 }
  let (v, maybeNextMode, interrupts) ←
    match v.ppuMode with
    | .mode2OamScan =>
        if v.dotInCurrentMode ≥ DOTS_PER_MODE2 then
          some ({ v with dotInCurrentMode := 0 }, some VideoMode.mode3DrawPixels,
            ([] : List VideoInterrupt))
        else some (v, none, [])
    | .mode3DrawPixels =>
        if v.dotInCurrentMode ≥ DOTS_PER_MODE3 then do
          let v := { v with dotInCurrentMode := 0 }
          let v ← v.drawScanline v.currentLine
          some (v, some VideoMode.mode0HorizontalBlank, [])
        else some (v, none, [])
    | .mode0HorizontalBlank =>
        if v.dotInCurrentMode ≥ DOTS_PER_MODE0 then
          let v := { v with dotInCurrentMode := 0, currentLine := v.currentLine + 1 }
          let interrupts :=
            if v.currentLine = v.lyc ∧ getBit v.lcdStatusData 6 then
              [VideoInterrupt.stat]
            else []
          if v.currentLine > 143 then
            some (v, some VideoMode.mode1VerticalBlank, interrupts)
          else
            some (v, some VideoMode.mode2OamScan, interrupts)
        else some (v, none, [])
    | .mode1VerticalBlank =>
        if v.dotInCurrentMode ≥ DOTS_PER_MODE1_ROW then
          let v := { v with dotInCurrentMode := 0, currentLine := v.currentLine + 1 }
          if v.currentLine > 153 then
            some ({ v with isFrameReady := true, currentLine := 0 },
              some VideoMode.mode2OamScan, [])
          else
            some (v, none, [])
        else some (v, none, [])
  let v := { v with lcdStatusData := setBitMut v.lcdStatusData 2 (v.currentLine = v.lyc) }
  match maybeNextMode with
  | none => some (v, interrupts)
  | some nextMode =>
      let v := { v with ppuMode := nextMode }
      let entryInterrupts :=
        match nextMode with
        | .mode2OamScan => if getBit v.lcdStatusData 5 then [VideoInterrupt.stat] else []
        | .mode3DrawPixels => []
        | .mode0HorizontalBlank => if getBit v.lcdStatusData 3 then [VideoInterrupt.stat] else []
        | .mode1VerticalBlank =>
            VideoInterrupt.vblank :: (if getBit v.lcdStatusData 4 then [VideoInterrupt.stat] else [])
      some (v, interrupts ++ entryInterrupts)

/-! ## mmu.rs: MMU -/

inductive InterruptSource where
  | vblank
  | lcd
  | timer
  | serial
  | joypad
deriving DecidableEq

/-- The discriminant values `VBlank = 0 .. Joypad = 4`. -/
def InterruptSource.toNat : InterruptSource → Nat
  | .vblank => 0
  | .lcd => 1
  | .timer => 2
  | .serial => 3
  | .joypad => 4

def interruptVector : InterruptSource → Nat
  | .vblank => 0x40
  | .lcd => 0x48
  | .timer => 0x50
  | .serial => 0x58
  | .joypad => 0x60

/-- The hard-coded 256-byte `BOOT_ROM` blob of mmu.rs. -/
def bootRomBytes : List Nat :=
  [0x31, 0xFE, 0xFF, 0xAF, 0x21, 0xFF, 0x9F, 0x32, 0xCB, 0x7C, 0x20, 0xFB, 0x21, 0x26, 0xFF, 0x0E,
   0x11, 0x3E, 0x80, 0x32, 0xE2, 0x0C, 0x3E, 0xF3, 0xE2, 0x32, 0x3E, 0x77, 0x77, 0x3E, 0xFC, 0xE0,
   0x47, 0x11, 0x04, 0x01, 0x21, 0x10, 0x80, 0x1A, 0xCD, 0x95, 0x00, 0xCD, 0x96, 0x00, 0x13, 0x7B,
   0xFE, 0x34, 0x20, 0xF3, 0x11, 0xD8, 0x00, 0x06, 0x08, 0x1A, 0x13, 0x22, 0x23, 0x05, 0x20, 0xF9,
   0x3E, 0x19, 0xEA, 0x10, 0x99, 0x21, 0x2F, 0x99, 0x0E, 0x0C, 0x3D, 0x28, 0x08, 0x32, 0x0D, 0x20,
   0xF9, 0x2E, 0x0F, 0x18, 0xF3, 0x67, 0x3E, 0x64, 0x57, 0xE0, 0x42, 0x3E, 0x91, 0xE0, 0x40, 0x04,
   0x1E, 0x02, 0x0E, 0x0C, 0xF0, 0x44, 0xFE, 0x90, 0x20, 0xFA, 0x0D, 0x20, 0xF7, 0x1D, 0x20, 0xF2,
   0x0E, 0x13, 0x24, 0x7C, 0x1E, 0x83, 0xFE, 0x62, 0x28, 0x06, 0x1E, 0xC1, 0xFE, 0x64, 0x20, 0x06,
   0x7B, 0xE2, 0x0C, 0x3E, 0x87, 0xE2, 0xF0, 0x42, 0x90, 0xE0, 0x42, 0x15, 0x20, 0xD2, 0x05, 0x20,
   0x4F, 0x16, 0x20, 0x18, 0xCB, 0x4F, 0x06, 0x04, 0xC5, 0xCB, 0x11, 0x17, 0xC1, 0xCB, 0x11, 0x17,
   0x05, 0x20, 0xF5, 0x22, 0x23, 0x22, 0x23, 0xC9, 0xCE, 0xED, 0x66, 0x66, 0xCC, 0x0D, 0x00, 0x0B,
   0x03, 0x73, 0x00, 0x83, 0x00, 0x0C, 0x00, 0x0D, 0x00, 0x08, 0x11, 0x1F, 0x88, 0x89, 0x00, 0x0E,
   0xDC, 0xCC, 0x6E, 0xE6, 0xDD, 0xDD, 0xD9, 0x99, 0xBB, 0xBB, 0x67, 0x63, 0x6E, 0x0E, 0xEC, 0xCC,
   0xDD, 0xDC, 0x99, 0x9F, 0xBB, 0xB9, 0x33, 0x3E, 0x3C, 0x42, 0xB9, 0xA5, 0xB9, 0xA5, 0x42, 0x3C,
   0x21, 0x04, 0x01, 0x11, 0xA8, 0x00, 0x1A, 0x13, 0xBE, 0x00, 0x00, 0x23, 0x7D, 0xFE, 0x34, 0x20,
   0xF5, 0x06, 0x19, 0x78, 0x86, 0x23, 0x05, 0x20, 0xFB, 0x86, 0x00, 0x00, 0x3E, 0x01, 0xE0, 0x50]

def bootRom (addr : Nat) : Nat :=
  bootRomBytes.getD addr 0

structure MMU where
  cartridge : Cartridge
  video : Video
  /-- `vec![0x00; 0x3000]` (only indices below 0x2000 are reachable). -/
  internalRam : Nat → Nat
  joypadInput : Joypad
  serialPort : Serial
  timer : Timer
  /-- The audio register bytes 0xFF10..=0xFF26 (`IO::audio`). -/
  audioRegs : Nat → Nat
  wavePattern : Nat → Nat
  bootRomDisabled : Nat
  highRam : Nat → Nat
  interruptEnable : Nat
  interruptFlags : Nat
  consumedReadWriteCycles : Nat

/-- `MMU::new` (with `IO::new` inlined). -/
def MMU.new (cartridge : Cartridge) (printSerial : Bool) : MMU :=
  { cartridge := cartridge
    video := Video.new
    internalRam := fun _ => 0x00
    joypadInput := Joypad.new
    serialPort := Serial.new printSerial
    timer := Timer.new
    audioRegs := fun _ => 0x00
    wavePattern := fun _ => 0x00
    bootRomDisabled := 0x00
    highRam := fun _ => 0x00
    interruptEnable := 0x00
    interruptFlags := 0x00
    consumedReadWriteCycles := 0x00 }

def MMU.isInterruptEnabled (m : MMU) (i : InterruptSource) : Bool :=
  getBit m.interruptEnable i.toNat

def MMU.hasInterruptFlag (m : MMU) (i : InterruptSource) : Bool :=
  getBit m.interruptFlags i.toNat

/-- `MMU::set_interrupt_flag`, via the buggy `set_bit_mut`. -/
def MMU.setInterruptFlag (m : MMU) (i : InterruptSource) (enabled : Bool) : MMU :=
  { m with interruptFlags := setBitMut m.interruptFlags i.toNat enabled }

/-- `MMU::maybe_tick_timers`. -/
def MMU.maybeTickTimers (m : MMU) (elapsedCycles : Nat) : MMU :=
  let (t, fire) := m.timer.maybeTickCycles elapsedCycles
  let m := { m with timer := t }
  if fire then m.setInterruptFlag .timer true else m

/-- `MMU::consume_cycle`: bill one machine cycle and tick the timer by it. -/
def MMU.consumeCycle (m : MMU) : MMU :=
  MMU.maybeTickTimers { m with consumedReadWriteCycles := m.consumedReadWriteCycles + 1 } 1

def MMU.takeConsumedCycles (m : MMU) : MMU × Nat :=
  ({ m with consumedReadWriteCycles := 0 }, m.consumedReadWriteCycles)

def MMU.bootRomDisabledFlag (m : MMU) : Bool :=
  m.bootRomDisabled ≠ 0

/-- `MMU::read_io`; `none` models the DMA-read panic and unmapped IO panics. -/
def MMU.readIo (m : MMU) (addr : Nat) : Option Nat :=
  if addr = 0xFF00 then some m.joypadInput.read
  else if 0xFF01 ≤ addr ∧ addr ≤ 0xFF02 then m.serialPort.read addr
  else if 0xFF04 ≤ addr ∧ addr ≤ 0xFF07 then
    -- `Timer::read`
    (if addr = 0xFF04 then some (m.timer.divider >>> 8)
     else if addr = 0xFF05 then some m.timer.timerCounter
     else if addr = 0xFF06 then some m.timer.timerModulo
     else some m.timer.timerControl)
  else if 0xFF10 ≤ addr ∧ addr ≤ 0xFF26 then some (m.audioRegs (addr - 0xFF10))
  else if 0xFF30 ≤ addr ∧ addr ≤ 0xFF3F then some (m.wavePattern (addr - 0xFF30))
  else if 0xFF40 ≤ addr ∧ addr ≤ 0xFF45 then m.video.readRegister addr
  else if addr = 0xFF46 then none
  else if 0xFF47 ≤ addr ∧ addr ≤ 0xFF4B then m.video.readRegister addr
  else if addr = 0xFF4D then some 0x00
  else if addr = 0xFF50 then some m.bootRomDisabled
  else none

/-- `MMU::read_no_consume_cycles`.  Addresses are 16-bit values, so the final
arm is exactly `0xFFFF => interrupt_enable`. -/
def MMU.readNoConsumeCycles (m : MMU) (addr : Nat) : Option Nat :=
  if addr = 0xFF0F then some m.interruptFlags
  else if addr ≤ 0x7FFF then
    if addr ≤ 0xFF ∧ m.bootRomDisabled = 0x00 then some (bootRom addr)
    else m.cartridge.read addr
  else if addr ≤ 0x9FFF then some (m.video.readVram addr)
  else if addr ≤ 0xBFFF then m.cartridge.read addr
  else if addr ≤ 0xDFFF then some (m.internalRam (addr - 0xC000))
  else if addr ≤ 0xFDFF then none
  else if addr ≤ 0xFE9F then some (m.video.readOam addr)
  else if addr ≤ 0xFEFF then none
  else if addr ≤ 0xFF7F then m.readIo addr
  else if addr ≤ 0xFFFE then some (m.highRam (addr - 0xFF80))
  else some m.interruptEnable

/-- `MMU::read`: bill a cycle, then dispatch. -/
def MMU.read (m : MMU) (addr : Nat) : Option (MMU × Nat) :=
  let m := m.consumeCycle
  (m.readNoConsumeCycles addr).map (fun v => (m, v))

/-- `MMU::read_word` (little-endian). -/
def MMU.readWord (m : MMU) (addr : Nat) : Option (MMU × Nat) := do
  let (m, low) ← m.read addr
  let (m, high) ← m.read ((addr + 1) % 65536)
  some (m, (high <<< 8) ||| low)

/-- The OAM arm of `MMU::write_no_consume_cycles` (shared with the DMA copy,
whose destination addresses all lie in 0xFE00..=0xFE9F and therefore always
dispatch to this arm). -/
def MMU.writeOamByte (m : MMU) (addr value : Nat) : MMU :=
  { m with video := m.video.writeOam addr value }

/-- `MMU::do_dma_transfer`: the 160-byte OAM copy, without cycle billing. -/
def MMU.doDmaTransfer (m : MMU) (dmaTarget : Nat) : Option MMU :=
  (List.range 0xA0).foldlM
    (fun m i => do
      let srcAddr := ((dmaTarget * 0x0100) % 65536 + i) % 65536
      let dstAddr := 0xFE00 + i
      let value ← m.readNoConsumeCycles srcAddr
      some (m.writeOamByte dstAddr value))
    m

/-- `MMU::write_io`; `none` models unmapped IO panics. -/
def MMU.writeIo (m : MMU) (addr value : Nat) : Option MMU :=
  if addr = 0xFF00 then some { m with joypadInput := m.joypadInput.write value }
  else if 0xFF01 ≤ addr ∧ addr ≤ 0xFF02 then
    (m.serialPort.write addr value).map (fun s => { m with serialPort := s })
  else if 0xFF04 ≤ addr ∧ addr ≤ 0xFF07 then
    -- `Timer::write`; a DIV write resets the whole 16-bit counter.
    (if addr = 0xFF04 then some { m with timer := { m.timer with divider := 0 } }
     else if addr = 0xFF05 then some { m with timer := { m.timer with timerCounter := value } }
     else if addr = 0xFF06 then some { m with timer := { m.timer with timerModulo := value } }
     else some { m with timer := { m.timer with timerControl := value } })
  else if 0xFF10 ≤ addr ∧ addr ≤ 0xFF26 then
    some { m with audioRegs := updFn m.audioRegs (addr - 0xFF10) value }
  else if 0xFF30 ≤ addr ∧ addr ≤ 0xFF3F then
    some { m with wavePattern := updFn m.wavePattern (addr - 0xFF30) value }
  else if 0xFF40 ≤ addr ∧ addr ≤ 0xFF45 then
    (m.video.writeRegister addr value).map (fun v => { m with video := v })
  else if addr = 0xFF46 then m.doDmaTransfer value
  else if 0xFF47 ≤ addr ∧ addr ≤ 0xFF4B then
    (m.video.writeRegister addr value).map (fun v => { m with video := v })
  else if addr = 0xFF4D then some m
  else if addr = 0xFF50 then some { m with bootRomDisabled := value }
  else if addr = 0xFF7F then some m
  else none

/-- `MMU::write_no_consume_cycles`. -/
def MMU.writeNoConsumeCycles (m : MMU) (addr value : Nat) : Option MMU :=
  if addr = 0xFF0F then some { m with interruptFlags := value }
  else if addr ≤ 0x7FFF then
    (m.cartridge.write addr value).map (fun c => { m with cartridge := c })
  else if addr ≤ 0x9FFF then some { m with video := m.video.writeVram addr value }
  else if addr ≤ 0xBFFF then
    (m.cartridge.write addr value).map (fun c => { m with cartridge := c })
  else if addr ≤ 0xDFFF then
    some { m with internalRam := updFn m.internalRam (addr - 0xC000) value }
  else if addr ≤ 0xFDFF then none
  else if addr ≤ 0xFE9F then some (m.writeOamByte addr value)
  else if addr ≤ 0xFEFF then some m
  else if addr ≤ 0xFF7F then m.writeIo addr value
  else if addr ≤ 0xFFFE then
    some { m with highRam := updFn m.highRam (addr - 0xFF80) value }
  else some { m with interruptEnable := value }

/-- `MMU::write`: bill a cycle, then dispatch. -/
def MMU.write (m : MMU) (addr value : Nat) : Option MMU :=
  let m := m.consumeCycle
  m.writeNoConsumeCycles addr value

/-- `MMU::write_word` (little-endian). -/
def MMU.writeWord (m : MMU) (addr value : Nat) : Option MMU := do
  let m ← m.write addr (value &&& 0xFF)
  m.write ((addr + 1) % 65536) ((value &&& 0xFF00) >>> 8)

def MMU.disableBootRom (m : MMU) : MMU :=
  { m with bootRomDisabled := 1 }

/-! ## instruction_decoder.rs -/

inductive RegisterU8 where
  | A | B | C | D | E | H | L

inductive RegisterU16 where
  | AF | BC | DE | HL

inductive LoadSrcU8 where
  | register (r : RegisterU8)
  | addressU16 (r : RegisterU16)
  | addressU8 (r : RegisterU8)
  | immediateAddressU8
  | immediateAddressU16
  | immediateU8
  | addressU16Increment (r : RegisterU16)
  | addressU16Decrement (r : RegisterU16)

inductive LoadDstU8 where
  | register (r : RegisterU8)
  | addressU8 (r : RegisterU8)
  | addressU16 (r : RegisterU16)
  | addressU16Increment (r : RegisterU16)
  | addressU16Decrement (r : RegisterU16)
  | immediateAddressU8
  | immediateAddressU16

inductive LoadSrcU16 where
  | register (r : RegisterU16)
  | immediateU16
  | stackPointer

inductive LoadDstU16 where
  | register (r : RegisterU16)
  | stackPointer
  | immediateAddress

inductive FlagCondition where
  | NZ | NC | Z | C

inductive IncDecU8Target where
  | registerU8 (r : RegisterU8)
  | address (r : RegisterU16)

inductive U16Target where
  | registerU16 (r : RegisterU16)
  | stackPointer

inductive CommonOperand where
  | register (r : RegisterU8)
  | addressHL

inductive LogicalOpTarget where
  | common (c : CommonOperand)
  | immediateU8

inductive Instruction where
  | noop
  | halt
  | loadU8 (dst : LoadDstU8) (src : LoadSrcU8)
  | loadU16 (dst : LoadDstU16) (src : LoadSrcU16)
  | loadHlWithOffsetSp
  | jumpImmediate (c : Option FlagCondition)
  | jumpAddressHL
  | disableInterrupts
  | enableInterrupts
  | call (c : Option FlagCondition)
  | jumpRelative (c : Option FlagCondition)
  | ret (c : Option FlagCondition)
  | reti
  | push (r : RegisterU16)
  | pop (r : RegisterU16)
  | incU8 (t : IncDecU8Target)
  | incU16 (t : U16Target)
  | orInstr (t : LogicalOpTarget)
  | compare (t : LogicalOpTarget)
  | andInstr (t : LogicalOpTarget)
  | decU8 (t : IncDecU8Target)
  | decU16 (t : U16Target)
  | xorInstr (t : LogicalOpTarget)
  | addStackPointer
  | addU8 (t : LogicalOpTarget)
  | addU16 (t : U16Target)
  | sub (t : LogicalOpTarget)
  | cbSrl (t : CommonOperand)
  | cbRr (t : CommonOperand)
  | cbRl (t : CommonOperand)
  | cbRlc (t : CommonOperand)
  | cbRrc (t : CommonOperand)
  | cbBit (n : Nat) (t : CommonOperand)
  | cbRes (n : Nat) (t : CommonOperand)
  | cbSet (n : Nat) (t : CommonOperand)
  | cbSwap (t : CommonOperand)
  | cbSla (t : CommonOperand)
  | cbSra (t : CommonOperand)
  | rra
  | rla
  | rlca
  | rrca
  | adc (t : LogicalOpTarget)
  | sbc (t : LogicalOpTarget)
  | cpl
  | scf
  | ccf
  | daa
  | rst (addr : Nat)
  | stop

/-- `resolve_common_operand_from_col` (the panic arm is dead: `col < 16`). -/
def resolveCommonOperandFromCol (col : Nat) : CommonOperand :=
  let offsetCol := if col < 0x8 then col else col - 0x8
  match offsetCol with
  | 0x0 => .register .B
  | 0x1 => .register .C
  | 0x2 => .register .D
  | 0x3 => .register .E
  | 0x4 => .register .H
  | 0x5 => .register .L
  | 0x6 => .addressHL
  | _ => .register .A

/-- `try_decode_u8_load_src`, with the match arms in source order. -/
def tryDecodeU8LoadSrc (rowMask colMask : Nat) : Option LoadSrcU8 :=
  if rowMask ≤ 0x3 ∧ colMask = 0x2 then some (.register .A)
  else if rowMask ≤ 0x3 ∧ colMask = 0x6 then some .immediateU8
  else if rowMask = 0x0 ∧ colMask = 0xA then some (.addressU16 .BC)
  else if rowMask = 0x1 ∧ colMask = 0xA then some (.addressU16 .DE)
  else if rowMask = 0x2 ∧ colMask = 0xA then some (.addressU16Increment .HL)
  else if rowMask = 0x3 ∧ colMask = 0xA then some (.addressU16Decrement .HL)
  else if rowMask ≤ 0x3 ∧ colMask = 0xE then some .immediateU8
  else if 0x4 ≤ rowMask ∧ rowMask ≤ 0x7 ∧ (colMask = 0x0 ∨ colMask = 0x8) then
    some (.register .B)
  else if 0x4 ≤ rowMask ∧ rowMask ≤ 0x7 ∧ (colMask = 0x1 ∨ colMask = 0x9) then
    some (.register .C)
  else if 0x4 ≤ rowMask ∧ rowMask ≤ 0x7 ∧ (colMask = 0x2 ∨ colMask = 0xA) then
    some (.register .D)
  else if 0x4 ≤ rowMask ∧ rowMask ≤ 0x7 ∧ (colMask = 0x3 ∨ colMask = 0xB) then
    some (.register .E)
  else if 0x4 ≤ rowMask ∧ rowMask ≤ 0x7 ∧ (colMask = 0x4 ∨ colMask = 0xC) then
    some (.register .H)
  else if 0x4 ≤ rowMask ∧ rowMask ≤ 0x7 ∧ (colMask = 0x5 ∨ colMask = 0xD) then
    some (.register .L)
  else if 0x4 ≤ rowMask ∧ rowMask ≤ 0x6 ∧ colMask = 0x6 then some (.addressU16 .HL)
  else if 0x4 ≤ rowMask ∧ rowMask ≤ 0x7 ∧ colMask = 0xE then some (.addressU16 .HL)
  else if 0x4 ≤ rowMask ∧ rowMask ≤ 0x7 ∧ (colMask = 0x7 ∨ colMask = 0xF) then
    some (.register .A)
  else if rowMask = 0xE ∧ colMask = 0x0 then some (.register .A)
  else if rowMask = 0xE ∧ colMask = 0x2 then some (.register .A)
  else if rowMask = 0xE ∧ colMask = 0xA then some (.register .A)
  else if rowMask = 0xF ∧ colMask = 0x0 then some .immediateAddressU8
  else if rowMask = 0xF ∧ colMask = 0x2 then some (.addressU8 .C)
  else if rowMask = 0xF ∧ colMask = 0xA then some .immediateAddressU16
  else none

/-- `try_decode_u8_load_dst`, with the match arms in source order. -/
def tryDecodeU8LoadDst (rowMask colMask : Nat) : Option LoadDstU8 :=
  if rowMask = 0x0 ∧ colMask = 0x2 then some (.addressU16 .BC)
  else if rowMask = 0x1 ∧ colMask = 0x2 then some (.addressU16 .DE)
  else if rowMask = 0x2 ∧ colMask = 0x2 then some (.addressU16Increment .HL)
  else if rowMask = 0x3 ∧ colMask = 0x2 then some (.addressU16Decrement .HL)
  else if rowMask = 0x0 ∧ colMask = 0x6 then some (.register .B)
  else if rowMask = 0x1 ∧ colMask = 0x6 then some (.register .D)
  else if rowMask = 0x2 ∧ colMask = 0x6 then some (.register .H)
  else if rowMask = 0x3 ∧ colMask = 0x6 then some (.addressU16 .HL)
  else if rowMask ≤ 0x3 ∧ colMask = 0xA then some (.register .A)
  else if rowMask = 0x0 ∧ colMask = 0xE then some (.register .C)
  else if rowMask = 0x1 ∧ colMask = 0xE then some (.register .E)
  else if rowMask = 0x2 ∧ colMask = 0xE then some (.register .L)
  else if rowMask = 0x3 ∧ colMask = 0xE then some (.register .A)
  else if rowMask = 0x4 ∧ colMask ≤ 0x7 then some (.register .B)
  else if rowMask = 0x5 ∧ colMask ≤ 0x7 then some (.register .D)
  else if rowMask = 0x6 ∧ colMask ≤ 0x7 then some (.register .H)
  else if rowMask = 0x7 ∧ colMask ≤ 0x7 then some (.addressU16 .HL)
  else if rowMask = 0x4 ∧ 0x8 ≤ colMask ∧ colMask ≤ 0xF then some (.register .C)
  else if rowMask = 0x5 ∧ 0x8 ≤ colMask ∧ colMask ≤ 0xF then some (.register .E)
  else if rowMask = 0x6 ∧ 0x8 ≤ colMask ∧ colMask ≤ 0xF then some (.register .L)
  else if rowMask = 0x7 ∧ 0x8 ≤ colMask ∧ colMask ≤ 0xF then some (.register .A)
  else if rowMask = 0xE ∧ colMask = 0x0 then some .immediateAddressU8
  else if rowMask = 0xE ∧ colMask = 0x2 then some (.addressU8 .C)
  else if rowMask = 0xE ∧ colMask = 0xA then some .immediateAddressU16
  else if rowMask = 0xF ∧ colMask = 0x0 then some (.register .A)
  else if rowMask = 0xF ∧ colMask = 0x2 then some (.register .A)
  else if rowMask = 0xF ∧ colMask = 0xA then some (.register .A)
  else none

def tryDecodeU8LoadInstruction (opcode : Nat) : Option Instruction := do
  let rowMask := (opcode &&& 0xF0) >>> 4
  let colMask := opcode &&& 0x0F
  let src ← tryDecodeU8LoadSrc rowMask colMask
  let dst ← tryDecodeU8LoadDst rowMask colMask
  some (.loadU8 dst src)

def tryDecodeU16LoadInstruction (opcode : Nat) : Option Instruction :=
  if opcode = 0x01 then some (.loadU16 (.register .BC) .immediateU16)
  else if opcode = 0x11 then some (.loadU16 (.register .DE) .immediateU16)
  else if opcode = 0x21 then some (.loadU16 (.register .HL) .immediateU16)
  else if opcode = 0x31 then some (.loadU16 .stackPointer .immediateU16)
  else if opcode = 0x08 then some (.loadU16 .immediateAddress .stackPointer)
  else if opcode = 0xF8 then some .loadHlWithOffsetSp
  else if opcode = 0xF9 then some (.loadU16 .stackPointer (.register .HL))
  else none

def tryDecodeCallInstruction (opcode : Nat) : Option Instruction :=
  if opcode = 0xC4 then some (.call (some .NZ))
  else if opcode = 0xCC then some (.call (some .Z))
  else if opcode = 0xCD then some (.call none)
  else if opcode = 0xD4 then some (.call (some .NC))
  else if opcode = 0xDC then some (.call (some .C))
  else none

def tryDecodeRelativeJumpInstruction (opcode : Nat) : Option Instruction :=
  if opcode = 0x18 then some (.jumpRelative none)
  else if opcode = 0x20 then some (.jumpRelative (some .NZ))
  else if opcode = 0x28 then some (.jumpRelative (some .Z))
  else if opcode = 0x30 then some (.jumpRelative (some .NC))
  else if opcode = 0x38 then some (.jumpRelative (some .C))
  else none

def tryDecodeRetInstruction (opcode : Nat) : Option Instruction :=
  if opcode = 0xC0 then some (.ret (some .NZ))
  else if opcode = 0xC8 then some (.ret (some .Z))
  else if opcode = 0xC9 then some (.ret none)
  else if opcode = 0xD0 then some (.ret (some .NC))
  else if opcode = 0xD8 then some (.ret (some .C))
  else if opcode = 0xD9 then some .reti
  else none

def tryDecodePushInstruction (opcode : Nat) : Option Instruction :=
  if opcode = 0xC5 then some (.push .BC)
  else if opcode = 0xD5 then some (.push .DE)
  else if opcode = 0xE5 then some (.push .HL)
  else if opcode = 0xF5 then some (.push .AF)
  else none

def tryDecodePopInstruction (opcode : Nat) : Option Instruction :=
  if opcode = 0xC1 then some (.pop .BC)
  else if opcode = 0xD1 then some (.pop .DE)
  else if opcode = 0xE1 then some (.pop .HL)
  else if opcode = 0xF1 then some (.pop .AF)
  else none

def tryDecodeIncInstruction (opcode : Nat) : Option Instruction :=
  if opcode = 0x03 then some (.incU16 (.registerU16 .BC))
  else if opcode = 0x13 then some (.incU16 (.registerU16 .DE))
  else if opcode = 0x23 then some (.incU16 (.registerU16 .HL))
  else if opcode = 0x33 then some (.incU16 .stackPointer)
  else if opcode = 0x04 then some (.incU8 (.registerU8 .B))
  else if opcode = 0x14 then some (.incU8 (.registerU8 .D))
  else if opcode = 0x24 then some (.incU8 (.registerU8 .H))
  else if opcode = 0x34 then some (.incU8 (.address .HL))
  else if opcode = 0x0C then some (.incU8 (.registerU8 .C))
  else if opcode = 0x1C then some (.incU8 (.registerU8 .E))
  else if opcode = 0x2C then some (.incU8 (.registerU8 .L))
  else if opcode = 0x3C then some (.incU8 (.registerU8 .A))
  else none

def tryDecodeOrInstruction (opcode : Nat) : Option Instruction :=
  if 0xB0 ≤ opcode ∧ opcode ≤ 0xB7 then
    some (.orInstr (.common (resolveCommonOperandFromCol (opcode &&& 0xF))))
  else if opcode = 0xF6 then some (.orInstr .immediateU8)
  else none

def tryDecodeCompareInstruction (opcode : Nat) : Option Instruction :=
  if 0xB8 ≤ opcode ∧ opcode ≤ 0xBF then
    some (.compare (.common (resolveCommonOperandFromCol (opcode &&& 0xF))))
  else if opcode = 0xFE then some (.compare .immediateU8)
  else none

def tryDecodeAndInstruction (opcode : Nat) : Option Instruction :=
  if 0xA0 ≤ opcode ∧ opcode ≤ 0xA7 then
    some (.andInstr (.common (resolveCommonOperandFromCol (opcode &&& 0xF))))
  else if opcode = 0xE6 then some (.andInstr .immediateU8)
  else none

def tryDecodeDecInstruction (opcode : Nat) : Option Instruction :=
  if opcode = 0x0B then some (.decU16 (.registerU16 .BC))
  else if opcode = 0x1B then some (.decU16 (.registerU16 .DE))
  else if opcode = 0x2B then some (.decU16 (.registerU16 .HL))
  else if opcode = 0x3B then some (.decU16 .stackPointer)
  else if opcode = 0x05 then some (.decU8 (.registerU8 .B))
  else if opcode = 0x15 then some (.decU8 (.registerU8 .D))
  else if opcode = 0x25 then some (.decU8 (.registerU8 .H))
  else if opcode = 0x35 then some (.decU8 (.address .HL))
  else if opcode = 0x0D then some (.decU8 (.registerU8 .C))
  else if opcode = 0x1D then some (.decU8 (.registerU8 .E))
  else if opcode = 0x2D then some (.decU8 (.registerU8 .L))
  else if opcode = 0x3D then some (.decU8 (.registerU8 .A))
  else none

def tryDecodeXorInstruction (opcode : Nat) : Option Instruction :=
  if 0xA8 ≤ opcode ∧ opcode ≤ 0xAF then
    some (.xorInstr (.common (resolveCommonOperandFromCol (opcode &&& 0xF))))
  else if opcode = 0xEE then some (.xorInstr .immediateU8)
  else none

def tryDecodeAddInstruction (opcode : Nat) : Option Instruction :=
  if opcode = 0x09 then some (.addU16 (.registerU16 .BC))
  else if opcode = 0x19 then some (.addU16 (.registerU16 .DE))
  else if opcode = 0x29 then some (.addU16 (.registerU16 .HL))
  else if opcode = 0x39 then some (.addU16 .stackPointer)
  else if opcode = 0xE8 then some .addStackPointer
  else if 0x80 ≤ opcode ∧ opcode ≤ 0x87 then
    some (.addU8 (.common (resolveCommonOperandFromCol (opcode &&& 0xF))))
  else if opcode = 0xC6 then some (.addU8 .immediateU8)
  else none

def tryDecodeSubInstruction (opcode : Nat) : Option Instruction :=
  if 0x90 ≤ opcode ∧ opcode ≤ 0x97 then
    some (.sub (.common (resolveCommonOperandFromCol (opcode &&& 0xF))))
  else if opcode = 0xD6 then some (.sub .immediateU8)
  else none

def tryDecodeAdcInstruction (opcode : Nat) : Option Instruction :=
  if 0x88 ≤ opcode ∧ opcode ≤ 0x8F then
    some (.adc (.common (resolveCommonOperandFromCol (opcode &&& 0xF))))
  else if opcode = 0xCE then some (.adc .immediateU8)
  else none

def tryDecodeSbcInstruction (opcode : Nat) : Option Instruction :=
  if 0x98 ≤ opcode ∧ opcode ≤ 0x9F then
    some (.sbc (.common (resolveCommonOperandFromCol (opcode &&& 0xF))))
  else if opcode = 0xDE then some (.sbc .immediateU8)
  else none

def tryDecodeJpInstruction (opcode : Nat) : Option Instruction :=
  if opcode = 0xC2 then some (.jumpImmediate (some .NZ))
  else if opcode = 0xD2 then some (.jumpImmediate (some .NC))
  else if opcode = 0xC3 then some (.jumpImmediate none)
  else if opcode = 0xCA then some (.jumpImmediate (some .Z))
  else if opcode = 0xDA then some (.jumpImmediate (some .C))
  else none

def tryDecodeRstInstruction (opcode : Nat) : Option Instruction :=
  if opcode = 0xC7 then some (.rst 0x00)
  else if opcode = 0xD7 then some (.rst 0x10)
  else if opcode = 0xE7 then some (.rst 0x20)
  else if opcode = 0xF7 then some (.rst 0x30)
  else if opcode = 0xCF then some (.rst 0x08)
  else if opcode = 0xDF then some (.rst 0x18)
  else if opcode = 0xEF then some (.rst 0x28)
  else if opcode = 0xFF then some (.rst 0x38)
  else none

/-- The non-family arms at the end of `decode`. -/
def decodeMisc (opcode : Nat) : Option Instruction :=
  if opcode = 0x00 then some .noop
  else if opcode = 0x07 then some .rlca
  else if opcode = 0x0F then some .rrca
  else if opcode = 0x10 then some .stop
  else if opcode = 0x17 then some .rla
  else if opcode = 0x1F then some .rra
  else if opcode = 0x27 then some .daa
  else if opcode = 0x2F then some .cpl
  else if opcode = 0x37 then some .scf
  else if opcode = 0x3F then some .ccf
  else if opcode = 0x76 then some .halt
  else if opcode = 0xE9 then some .jumpAddressHL
  else if opcode = 0xF3 then some .disableInterrupts
  else if opcode = 0xFB then some .enableInterrupts
  else none

/-- `decode`: the primary opcode table, with the decode families tried in
source order (each `if let Some(i) = try_... { return Some(i) }`). -/
def decodeFamilies : List (Nat → Option Instruction) :=
  [tryDecodeU8LoadInstruction, tryDecodeU16LoadInstruction, tryDecodeCallInstruction,
   tryDecodeRelativeJumpInstruction, tryDecodeRetInstruction, tryDecodePushInstruction,
   tryDecodePopInstruction, tryDecodeIncInstruction, tryDecodeOrInstruction,
   tryDecodeCompareInstruction, tryDecodeAndInstruction, tryDecodeDecInstruction,
   tryDecodeXorInstruction, tryDecodeAddInstruction, tryDecodeSubInstruction,
   tryDecodeAdcInstruction, tryDecodeSbcInstruction, tryDecodeJpInstruction,
   tryDecodeRstInstruction, decodeMisc]

def decode (opcode : Nat) : Option Instruction :=
  decodeFamilies.foldl (fun acc f => match acc with | some i => some i | none => f opcode) none

/-- `decode_cb`: the extended opcode table (total over `opcode < 256`). -/
def decodeCb (opcode : Nat) : Option Instruction :=
  let target := resolveCommonOperandFromCol (opcode &&& 0xF)
  if opcode ≤ 0x07 then some (.cbRlc target)
  else if opcode ≤ 0x0F then some (.cbRrc target)
  else if opcode ≤ 0x17 then some (.cbRl target)
  else if opcode ≤ 0x1F then some (.cbRr target)
  else if opcode ≤ 0x27 then some (.cbSla target)
  else if opcode ≤ 0x2F then some (.cbSra target)
  else if opcode ≤ 0x37 then some (.cbSwap target)
  else if opcode ≤ 0x3F then some (.cbSrl target)
  else if opcode ≤ 0x7F then some (.cbBit ((opcode - 0x40) / 8) target)
  else if opcode ≤ 0xBF then some (.cbRes ((opcode - 0x80) / 8) target)
  else if opcode ≤ 0xFF then some (.cbSet ((opcode - 0xC0) / 8) target)
  else none

/-! ## cycles.rs

The module `cycles` (the four opcode cycle tables used by `CPU::tick`) is
referenced from cpu.rs but its source file is not part of the snapshot, so the
tables are modelled from the spec below.  Entries for undecodable opcodes are
never consulted and are set to 0.
-/

/-- Modelled from the spec: `NORMAL_OPCODE_CYCLES`, the machine-cycle cost of
each primary opcode when no conditional branch is taken ("Cycle cost is the
published value for every accepted opcode", spec §8; values are the published
M-cycle figures of the documented opcode matrix). -/
def NORMAL_OPCODE_CYCLES : List Nat :=
  [1, 3, 2, 2, 1, 1, 2, 1, 5, 2, 2, 2, 1, 1, 2, 1,
   1, 3, 2, 2, 1, 1, 2, 1, 3, 2, 2, 2, 1, 1, 2, 1,
   2, 3, 2, 2, 1, 1, 2, 1, 2, 2, 2, 2, 1, 1, 2, 1,
   2, 3, 2, 2, 3, 3, 3, 1, 2, 2, 2, 2, 1, 1, 2, 1,
   1, 1, 1, 1, 1, 1, 2, 1, 1, 1, 1, 1, 1, 1, 2, 1,
   1, 1, 1, 1, 1, 1, 2, 1, 1, 1, 1, 1, 1, 1, 2, 1,
   1, 1, 1, 1, 1, 1, 2, 1, 1, 1, 1, 1, 1, 1, 2, 1,
   2, 2, 2, 2, 2, 2, 1, 2, 1, 1, 1, 1, 1, 1, 2, 1,
   1, 1, 1, 1, 1, 1, 2, 1, 1, 1, 1, 1, 1, 1, 2, 1,
   1, 1, 1, 1, 1, 1, 2, 1, 1, 1, 1, 1, 1, 1, 2, 1,
   1, 1, 1, 1, 1, 1, 2, 1, 1, 1, 1, 1, 1, 1, 2, 1,
   1, 1, 1, 1, 1, 1, 2, 1, 1, 1, 1, 1, 1, 1, 2, 1,
   2, 3, 3, 4, 3, 4, 2, 4, 2, 4, 3, 1, 3, 6, 2, 4,
   2, 3, 3, 0, 3, 4, 2, 4, 2, 4, 3, 0, 3, 0, 2, 4,
   3, 3, 2, 0, 0, 4, 2, 4, 4, 1, 4, 0, 0, 0, 2, 4,
   3, 3, 2, 1, 0, 4, 2, 4, 3, 2, 4, 1, 0, 0, 2, 4]

/-- Modelled from the spec: `NORMAL_OPCODE_CYCLES_BRANCED`, the machine-cycle
cost of each primary opcode when its conditional branch is taken ("branched
conditionals cost the branched figure iff the condition is true on entry",
spec §8).  It differs from the untaken table only at the conditional JR
(0x20/0x28/0x30/0x38), RET (0xC0/0xC8/0xD0/0xD8), JP (0xC2/0xCA/0xD2/0xDA)
and CALL (0xC4/0xCC/0xD4/0xDC) opcodes. -/
def NORMAL_OPCODE_CYCLES_BRANCED : List Nat :=
  [1, 3, 2, 2, 1, 1, 2, 1, 5, 2, 2, 2, 1, 1, 2, 1,
   1, 3, 2, 2, 1, 1, 2, 1, 3, 2, 2, 2, 1, 1, 2, 1,
   3, 3, 2, 2, 1, 1, 2, 1, 3, 2, 2, 2, 1, 1, 2, 1,
   3, 3, 2, 2, 3, 3, 3, 1, 3, 2, 2, 2, 1, 1, 2, 1,
   1, 1, 1, 1, 1, 1, 2, 1, 1, 1, 1, 1, 1, 1, 2, 1,
   1, 1, 1, 1, 1, 1, 2, 1, 1, 1, 1, 1, 1, 1, 2, 1,
   1, 1, 1, 1, 1, 1, 2, 1, 1, 1, 1, 1, 1, 1, 2, 1,
   2, 2, 2, 2, 2, 2, 1, 2, 1, 1, 1, 1, 1, 1, 2, 1,
   1, 1, 1, 1, 1, 1, 2, 1, 1, 1, 1, 1, 1, 1, 2, 1,
   1, 1, 1, 1, 1, 1, 2, 1, 1, 1, 1, 1, 1, 1, 2, 1,
   1, 1, 1, 1, 1, 1, 2, 1, 1, 1, 1, 1, 1, 1, 2, 1,
   1, 1, 1, 1, 1, 1, 2, 1, 1, 1, 1, 1, 1, 1, 2, 1,
   5, 3, 4, 4, 6, 4, 2, 4, 5, 4, 4, 1, 6, 6, 2, 4,
   5, 3, 4, 0, 6, 4, 2, 4, 5, 4, 4, 0, 6, 0, 2, 4,
   3, 3, 2, 0, 0, 4, 2, 4, 4, 1, 4, 0, 0, 0, 2, 4,
   3, 3, 2, 1, 0, 4, 2, 4, 3, 2, 4, 1, 0, 0, 2, 4]

/-- Modelled from the spec: `CB_OPCODE_CYCLES`, the machine-cycle cost of each
extended (CB) opcode: 2 for register operands, 4 for `(HL)` operands, except
`BIT n,(HL)` (0x46..0x7E at column 6/E) which costs 3. -/
def CB_OPCODE_CYCLES : List Nat :=
  (List.range 256).map (fun op =>
    if op % 8 = 6 then (if 0x40 ≤ op ∧ op ≤ 0x7F then 3 else 4) else 2)

def normalOpcodeCycles (opcode : Nat) : Nat :=
  NORMAL_OPCODE_CYCLES.getD opcode 0

def normalOpcodeCyclesBranched (opcode : Nat) : Nat :=
  NORMAL_OPCODE_CYCLES_BRANCED.getD opcode 0

def cbOpcodeCycles (opcode : Nat) : Nat :=
  CB_OPCODE_CYCLES.getD opcode 0

/-! ## cpu.rs -/

/-- `swap_nibbles`. -/
def swapNibbles (value : Nat) : Nat :=
  ((value &&& 0x0F) <<< 4) ||| ((value &&& 0xF0) >>> 4)

/-- A flag-change record: `None` leaves the prior bit untouched. -/
structure FlagChange where
  z : Option Bool
  n : Option Bool
  h : Option Bool
  c : Option Bool

inductive OpcodeType where
  | normal
  | cb
deriving DecidableEq

/-- The CPU state.  `flagValue` is `FlagRegister::value`; the `trace_mode`
field only selects debug printing and the serial sink flag (carried by the
MMU model), so it is not represented. -/
structure CPU where
  pc : Nat
  sp : Nat
  mmu : MMU
  a : Nat
  b : Nat
  c : Nat
  d : Nat
  e : Nat
  h : Nat
  l : Nat
  interruptsEnabled : Bool
  flagValue : Nat
  didTakeConditionalBranch : Bool
  halted : Bool

/-- `CPU::new` (boot-ROM entry state). -/
def CPU.new (cartridge : Cartridge) (printSerial : Bool) : CPU :=
  { pc := 0x0000
    sp := 0xFFFE
    mmu := MMU.new cartridge printSerial
    a := 0x00, b := 0x00, c := 0x00, d := 0x00, e := 0x00, h := 0x00, l := 0x00
    interruptsEnabled := false
    flagValue := 0x00
    didTakeConditionalBranch := false
    halted := false }

/-- `CPU::new_without_boot_rom`. -/
def CPU.newWithoutBootRom (cartridge : Cartridge) (printSerial : Bool) : CPU :=
  { pc := 0x0100
    sp := 0xFFFE
    mmu := MMU.new cartridge printSerial
    a := 0x01, b := 0x00, c := 0x13, d := 0x00, e := 0xD8, h := 0x01, l := 0x4D
    interruptsEnabled := false
    flagValue := 0xB0
    didTakeConditionalBranch := false
    halted := false }

def CPU.getReg8 (s : CPU) : RegisterU8 → Nat
  | .A => s.a
  | .B => s.b
  | .C => s.c
  | .D => s.d
  | .E => s.e
  | .H => s.h
  | .L => s.l

def CPU.setReg8 (s : CPU) (r : RegisterU8) (v : Nat) : CPU :=
  match r with
  | .A => { s with a := v }
  | .B => { s with b := v }
  | .C => { s with c := v }
  | .D => { s with d := v }
  | .E => { s with e := v }
  | .H => { s with h := v }
  | .L => { s with l := v }

/-- `RegisterPair::get` / `ImmutableRegisterPair::get`: `high << 8 | low`,
with the bottom nibble of F forced to zero for AF. -/
def CPU.getReg16 (s : CPU) : RegisterU16 → Nat
  | .AF => (s.a <<< 8) ||| (s.flagValue &&& 0xF0)
  | .BC => (s.b <<< 8) ||| s.c
  | .DE => (s.d <<< 8) ||| s.e
  | .HL => (s.h <<< 8) ||| s.l

/-- `RegisterPair::set` (the raw low byte is stored, also into F). -/
def CPU.setReg16 (s : CPU) (r : RegisterU16) (value : Nat) : CPU :=
  let high := (value &&& 0xFF00) >>> 8
  let low := value &&& 0x00FF
  match r with
  | .AF => { s with a := high, flagValue := low }
  | .BC => { s with b := high, c := low }
  | .DE => { s with d := high, e := low }
  | .HL => { s with h := high, l := low }

def CPU.getZ (s : CPU) : Bool := getBit s.flagValue 7
def CPU.getN (s : CPU) : Bool := getBit s.flagValue 6
def CPU.getH (s : CPU) : Bool := getBit s.flagValue 5
def CPU.getC (s : CPU) : Bool := getBit s.flagValue 4

def CPU.setZ (s : CPU) (b : Bool) : CPU := { s with flagValue := setBit s.flagValue 7 b }
def CPU.setN (s : CPU) (b : Bool) : CPU := { s with flagValue := setBit s.flagValue 6 b }
def CPU.setH (s : CPU) (b : Bool) : CPU := { s with flagValue := setBit s.flagValue 5 b }
def CPU.setCFlag (s : CPU) (b : Bool) : CPU := { s with flagValue := setBit s.flagValue 4 b }

/-- `CPU::apply_flag_change`. -/
def CPU.applyFlagChange (s : CPU) (fc : FlagChange) : CPU :=
  let s := match fc.z with | some z => s.setZ z | none => s
  let s := match fc.n with | some n => s.setN n | none => s
  let s := match fc.h with | some h => s.setH h | none => s
  match fc.c with | some c => s.setCFlag c | none => s

/-- `CPU::next_pc` followed by the MMU read of `CPU::read_u8` (PC increments
with 16-bit wrap-around). -/
def CPU.readU8 (s : CPU) : Option (CPU × Nat) := do
  let address := s.pc
  let s := { s with pc := (s.pc + 1) % 65536 }
  let (m, v) ← s.mmu.read address
  some ({ s with mmu := m }, v)

/-- `CPU::read_u16` (little-endian immediate). -/
def CPU.readU16 (s : CPU) : Option (CPU × Nat) := do
  let (s, a) ← s.readU8
  let (s, b) ← s.readU8
  some (s, (b <<< 8) ||| a)

def CPU.hl (s : CPU) : Nat :=
  s.getReg16 .HL

/-- `CPU::read_u8_target`. -/
def CPU.readU8Target (s : CPU) (target : LoadSrcU8) : Option (CPU × Nat) :=
  match target with
  | .register reg => some (s, s.getReg8 reg)
  | .addressU16 reg => do
      let addr := s.getReg16 reg
      let (m, v) ← s.mmu.read addr
      some ({ s with mmu := m }, v)
  | .addressU8 reg => do
      let lowerAddr := s.getReg8 reg
      let (m, v) ← s.mmu.read (0xFF00 + lowerAddr)
      some ({ s with mmu := m }, v)
  | .immediateAddressU8 => do
      let (s, lowerAddr) ← s.readU8
      let (m, v) ← s.mmu.read (0xFF00 + lowerAddr)
      some ({ s with mmu := m }, v)
  | .immediateAddressU16 => do
      let (s, addr) ← s.readU16
      let (m, v) ← s.mmu.read addr
      some ({ s with mmu := m }, v)
  | .immediateU8 => s.readU8
  | .addressU16Increment reg => do
      let addr := s.getReg16 reg
      let (m, v) ← s.mmu.read addr
      let s := { s with mmu := m }
      some (s.setReg16 reg ((addr + 1) % 65536), v)
  | .addressU16Decrement reg => do
      let addr := s.getReg16 reg
      let (m, v) ← s.mmu.read addr
      let s := { s with mmu := m }
      some (s.setReg16 reg ((addr + 65535) % 65536), v)

/-- `CPU::write_u8_target`. -/
def CPU.writeU8Target (s : CPU) (target : LoadDstU8) (value : Nat) : Option CPU :=
  match target with
  | .register reg => some (s.setReg8 reg value)
  | .addressU8 reg => do
      let lowerAddr := s.getReg8 reg
      let m ← s.mmu.write (0xFF00 + lowerAddr) value
      some { s with mmu := m }
  | .addressU16 reg => do
      let addr := s.getReg16 reg
      let m ← s.mmu.write addr value
      some { s with mmu := m }
  | .addressU16Increment reg => do
      let addr := s.getReg16 reg
      let m ← s.mmu.write addr value
      let s := { s with mmu := m }
      some (s.setReg16 reg ((addr + 1) % 65536))
  | .addressU16Decrement reg => do
      let addr := s.getReg16 reg
      let m ← s.mmu.write addr value
      let s := { s with mmu := m }
      some (s.setReg16 reg ((addr + 65535) % 65536))
  | .immediateAddressU8 => do
      let (s, lowerAddr) ← s.readU8
      let m ← s.mmu.write (0xFF00 + lowerAddr) value
      some { s with mmu := m }
  | .immediateAddressU16 => do
      let (s, addr) ← s.readU16
      let m ← s.mmu.write addr value
      some { s with mmu := m }

/-- `CPU::read_u16_target`. -/
def CPU.readU16Target (s : CPU) (target : LoadSrcU16) : Option (CPU × Nat) :=
  match target with
  | .register reg => some (s, s.getReg16 reg)
  | .immediateU16 => s.readU16
  | .stackPointer => some (s, s.sp)

/-- `CPU::write_u16_target`. -/
def CPU.writeU16Target (s : CPU) (target : LoadDstU16) (value : Nat) : Option CPU :=
  match target with
  | .register reg => some (s.setReg16 reg value)
  | .stackPointer => some { s with sp := value }
  | .immediateAddress => do
      let (s, addr) ← s.readU16
      let m ← s.mmu.writeWord addr value
      some { s with mmu := m }

/-- `CPU::stack_push`: `sp -= 2`, then a word write (the subtraction wraps in
16 bits). -/
def CPU.stackPush (s : CPU) (value : Nat) : Option CPU := do
  let s := { s with sp := (s.sp + 65534) % 65536 }
  let m ← s.mmu.writeWord s.sp value
  some { s with mmu := m }

/-- `CPU::stack_pop`: a word read, then `sp = sp.wrapping_add(2)`. -/
def CPU.stackPop (s : CPU) : Option (CPU × Nat) := do
  let (m, word) ← s.mmu.readWord s.sp
  some ({ s with mmu := m, sp := (s.sp + 2) % 65536 }, word)

/-- `CPU::is_flag_condition_true` (records the taken-branch transient). -/
def CPU.isFlagConditionTrue (s : CPU) (condition : Option FlagCondition) : CPU × Bool :=
  match condition with
  | none => (s, true)
  | some cond =>
      let isConditionTrue :=
        match cond with
        | .Z => s.getZ
        | .NZ => !s.getZ
        | .C => s.getC
        | .NC => !s.getC
      ({ s with didTakeConditionalBranch := isConditionTrue }, isConditionTrue)

/-- `CPU::rst`. -/
def CPU.rst (s : CPU) (addr : Nat) : Option CPU := do
  let s ← s.stackPush s.pc
  some { s with pc := addr }

/-- `CPU::call`. -/
def CPU.call (s : CPU) (condition : Option FlagCondition) : Option CPU := do
  let (s, targetAddress) ← s.readU16
  let (s, take) := s.isFlagConditionTrue condition
  if take then do
    let s ← s.stackPush s.pc
    some { s with pc := targetAddress }
  else some s

/-- `CPU::jump_immediate`. -/
def CPU.jumpImmediate (s : CPU) (condition : Option FlagCondition) : Option CPU := do
  let (s, address) ← s.readU16
  let (s, take) := s.isFlagConditionTrue condition
  some (if take then { s with pc := address } else s)

/-- `CPU::relative_jump`.  The i8/i16 arithmetic is mirrored on 16-bit
two's-complement bit patterns: the sign-extended offset pattern is added to
PC modulo 2^16. -/
def CPU.relativeJump (s : CPU) (condition : Option FlagCondition) : Option CPU := do
  let (s, offsetByte) ← s.readU8
  let offsetPattern := if offsetByte < 0x80 then offsetByte else 0xFF00 ||| offsetByte
  let newPc := (s.pc + offsetPattern) % 65536
  let (s, take) := s.isFlagConditionTrue condition
  some (if take then { s with pc := newPc } else s)

/-- `CPU::ret`. -/
def CPU.ret (s : CPU) (condition : Option FlagCondition) : Option CPU := do
  let (s, take) := s.isFlagConditionTrue condition
  if take then do
    let (s, newPc) ← s.stackPop
    some { s with pc := newPc }
  else some s

/-- `CPU::push`. -/
def CPU.pushReg (s : CPU) (reg : RegisterU16) : Option CPU :=
  s.stackPush (s.getReg16 reg)

/-- `CPU::pop`. -/
def CPU.popReg (s : CPU) (reg : RegisterU16) : Option CPU := do
  let (s, value) ← s.stackPop
  some (s.setReg16 reg value)

/-- `CPU::inc_u8` (wrapping increment; Z/N/H set, C untouched). -/
def CPU.incU8 (s : CPU) (target : IncDecU8Target) : Option CPU := do
  let (s, result) ←
    match target with
    | .registerU8 reg =>
        let v := (s.getReg8 reg + 1) % 256
        some (s.setReg8 reg v, v)
    | .address reg => do
        let address := s.getReg16 reg
        let (m, v0) ← s.mmu.read address
        let value := (v0 + 1) % 256
        let m ← MMU.write m address value
        some (({ s with mmu := m } : CPU), value)
  some (s.applyFlagChange
    { z := some (result = 0), n := some false, h := some (result &&& 0x0F = 0x00), c := none })

/-- `CPU::inc_u16`. -/
def CPU.incU16 (s : CPU) (target : U16Target) : CPU :=
  match target with
  | .registerU16 reg => s.setReg16 reg ((s.getReg16 reg + 1) % 65536)
  | .stackPointer => { s with sp := (s.sp + 1) % 65536 }

/-- `CPU::dec_u8`. -/
def CPU.decU8 (s : CPU) (target : IncDecU8Target) : Option CPU := do
  let (s, result) ←
    match target with
    | .registerU8 reg =>
        let v := (s.getReg8 reg + 255) % 256
        some (s.setReg8 reg v, v)
    | .address reg => do
        let address := s.getReg16 reg
        let (m, v0) ← s.mmu.read address
        let value := (v0 + 255) % 256
        let m ← MMU.write m address value
        some (({ s with mmu := m } : CPU), value)
  some (s.applyFlagChange
    { z := some (result = 0), n := some true, h := some (result &&& 0x0F = 0x0F), c := none })

/-- `CPU::dec_u16`. -/
def CPU.decU16 (s : CPU) (target : U16Target) : CPU :=
  match target with
  | .registerU16 reg => s.setReg16 reg ((s.getReg16 reg + 65535) % 65536)
  | .stackPointer => { s with sp := (s.sp + 65535) % 65536 }

/-- `CPU::resolve_logical_op_target`. -/
def CPU.resolveLogicalOpTarget (s : CPU) (target : LogicalOpTarget) : Option (CPU × Nat) :=
  match target with
  | .common (.register reg) => some (s, s.getReg8 reg)
  | .common .addressHL => do
      let addr := s.getReg16 .HL
      let (m, v) ← s.mmu.read addr
      some ({ s with mmu := m }, v)
  | .immediateU8 => s.readU8

/-- `CPU::or`. -/
def CPU.orOp (s : CPU) (target : LogicalOpTarget) : Option CPU := do
  let (s, value) ← s.resolveLogicalOpTarget target
  let s := { s with a := s.a ||| value }
  some (s.applyFlagChange
    { z := some (s.a = 0), n := some false, h := some false, c := some false })

/-- `CPU::and`. -/
def CPU.andOp (s : CPU) (target : LogicalOpTarget) : Option CPU := do
  let (s, value) ← s.resolveLogicalOpTarget target
  let s := { s with a := s.a &&& value }
  some (s.applyFlagChange
    { z := some (s.a = 0), n := some false, h := some true, c := some false })

/-- `CPU::xor`. -/
def CPU.xorOp (s : CPU) (target : LogicalOpTarget) : Option CPU := do
  let (s, value) ← s.resolveLogicalOpTarget target
  let s := { s with a := s.a ^^^ value }
  some (s.applyFlagChange
    { z := some (s.a = 0), n := some false, h := some false, c := some false })

/-- `CPU::add_u8`. -/
def CPU.addU8Op (s : CPU) (target : LogicalOpTarget) : Option CPU := do
  let (s, value) ← s.resolveLogicalOpTarget target
  let halfCarry := (s.a &&& 0xF) + (value &&& 0xF) > 0xF
  let result := s.a + value
  let s := { s with a := result % 256 }
  some (s.applyFlagChange
    { z := some (s.a = 0), n := some false, h := some halfCarry, c := some (result > 0xFF) })

/-- `CPU::add_u16` (HL ← HL + rr). -/
def CPU.addU16Op (s : CPU) (target : U16Target) : CPU :=
  let rhs :=
    match target with
    | .registerU16 reg => s.getReg16 reg
    | .stackPointer => s.sp
  let hlv := s.getReg16 .HL
  let result := hlv + rhs
  let s := s.setReg16 .HL (result % 65536)
  s.applyFlagChange
    { z := none, n := some false
      h := some ((hlv &&& 0xFFF) + (rhs &&& 0xFFF) > 0xFFF)
      c := some (result > 0xFFFF) }

/-- `CPU::adc`. -/
def CPU.adc (s : CPU) (target : LogicalOpTarget) : Option CPU := do
  let (s, value) ← s.resolveLogicalOpTarget target
  let carryValue := if s.getC then 1 else 0
  let halfCarry := (s.a &&& 0xF) + (value &&& 0xF) + carryValue > 0xF
  let result := s.a + value + carryValue
  let s := { s with a := result % 256 }
  some (s.applyFlagChange
    { z := some (s.a = 0), n := some false, h := some halfCarry, c := some (result > 0xFF) })

/-- `CPU::sbc` (wrapping double subtraction). -/
def CPU.sbc (s : CPU) (target : LogicalOpTarget) : Option CPU := do
  let (s, value) ← s.resolveLogicalOpTarget target
  let carryValue := if s.getC then 1 else 0
  let newCarry := s.a < value + carryValue
  let halfCarry := s.a &&& 0xF < (value &&& 0xF) + carryValue
  let s := { s with a := (s.a + 512 - value - carryValue) % 256 }
  some (s.applyFlagChange
    { z := some (s.a = 0), n := some true, h := some halfCarry, c := some newCarry })

/-- `CPU::sub`. -/
def CPU.subOp (s : CPU) (target : LogicalOpTarget) : Option CPU := do
  let (s, value) ← s.resolveLogicalOpTarget target
  let halfCarry := s.a &&& 0xF < value &&& 0xF
  let carry := s.a < value
  let s := { s with a := (s.a + 256 - value) % 256 }
  some (s.applyFlagChange
    { z := some (s.a = 0), n := some true, h := some halfCarry, c := some carry })

/-- `CPU::add_stackpointer_immediate` (ADD SP, i8).  The i16 arithmetic and
the XOR carry tests are mirrored on 16-bit two's-complement bit patterns. -/
def CPU.addStackpointerImmediate (s : CPU) : Option CPU := do
  let (s, offsetByte) ← s.readU8
  let offsetPattern := if offsetByte < 0x80 then offsetByte else 0xFF00 ||| offsetByte
  let result := (s.sp + offsetPattern) % 65536
  let halfCarry := (s.sp ^^^ offsetPattern ^^^ result) &&& 0x10 = 0x10
  let carry := (s.sp ^^^ offsetPattern ^^^ result) &&& 0x100 = 0x100
  let s := { s with sp := result }
  some (s.applyFlagChange
    { z := some false, n := some false, h := some halfCarry, c := some carry })

/-- The `LoadHlWithOffsetSp` arm of `CPU::tick` (LD HL, SP+i8), mirrored on
bit patterns like `addStackpointerImmediate`. -/
def CPU.loadHlWithOffsetSpOp (s : CPU) : Option CPU := do
  let (s, offsetByte) ← s.readU8
  let offsetPattern := if offsetByte < 0x80 then offsetByte else 0xFF00 ||| offsetByte
  let result := (s.sp + offsetPattern) % 65536
  let halfCarry := (s.sp ^^^ offsetPattern ^^^ result) &&& 0x10 = 0x10
  let carry := (s.sp ^^^ offsetPattern ^^^ result) &&& 0x100 = 0x100
  let s ← s.writeU16Target (.register .HL) result
  some (s.applyFlagChange
    { z := some false, n := some false, h := some halfCarry, c := some carry })

/-- `CPU::compare` (CP: flags only). -/
def CPU.compare (s : CPU) (target : LogicalOpTarget) : Option CPU := do
  let (s, value) ← s.resolveLogicalOpTarget target
  let result := (s.a + 256 - value) % 256
  let nibbleA := s.a &&& 0xF
  let nibbleValue := value &&& 0xF
  some (s.applyFlagChange
    { z := some (result = 0), n := some true, h := some (nibbleA < nibbleValue)
      c := some (s.a < value) })

/-- `CPU::apply_cb_target`. -/
def CPU.applyCbTarget (s : CPU) (target : CommonOperand)
    (applier : Nat → Option Nat × FlagChange) : Option CPU := do
  let (s, value) ←
    match target with
    | .register reg => some (s, s.getReg8 reg)
    | .addressHL => do
        let address := s.hl
        let (m, v) ← s.mmu.read address
        some (({ s with mmu := m } : CPU), v)
  let (maybeResult, flagChange) := applier value
  let s := s.applyFlagChange flagChange
  match maybeResult with
  | none => some s
  | some result =>
      match target with
      | .register reg => some (s.setReg8 reg result)
      | .addressHL => do
          let address := s.hl
          let m ← s.mmu.write address result
          some { s with mmu := m }

/-- `CPU::srl`. -/
def CPU.srl (s : CPU) (target : CommonOperand) : Option CPU :=
  s.applyCbTarget target (fun value =>
    let carry := value &&& 0x1 ≠ 0
    let result := value >>> 1
    (some result,
     { z := some (result = 0), n := some false, h := some false, c := some carry }))

/-- `CPU::rr` (rotate right through carry). -/
def CPU.rr (s : CPU) (target : CommonOperand) : Option CPU :=
  let oldCarry := s.getC
  s.applyCbTarget target (fun value =>
    let newCarry := getBit value 0
    let result := if oldCarry then (value >>> 1) ||| (1 <<< 7) else value >>> 1
    (some result,
     { z := some (result = 0), n := some false, h := some false, c := some newCarry }))

/-- `CPU::rl` (rotate left through carry; the u8 shift discards bit 7). -/
def CPU.rl (s : CPU) (target : CommonOperand) : Option CPU :=
  let oldCarry := s.getC
  s.applyCbTarget target (fun value =>
    let newCarry := getBit value 7
    let result := if oldCarry then ((value <<< 1) % 256) ||| 1 else (value <<< 1) % 256
    (some result,
     { z := some (result = 0), n := some false, h := some false, c := some newCarry }))

/-- `CPU::rlc`. -/
def CPU.rlc (s : CPU) (target : CommonOperand) : Option CPU :=
  s.applyCbTarget target (fun value =>
    let carry := getBit value 7
    let result := ((value <<< 1) % 256) ||| (if carry then 1 else 0)
    (some result,
     { z := some (result = 0), n := some false, h := some false, c := some carry }))

/-- `CPU::rrc`. -/
def CPU.rrc (s : CPU) (target : CommonOperand) : Option CPU :=
  s.applyCbTarget target (fun value =>
    let carry := getBit value 0
    let carryBit := if carry then 1 else 0
    let result := (value >>> 1) ||| (carryBit <<< 7)
    (some result,
     { z := some (result = 0), n := some false, h := some false, c := some carry }))

/-- `CPU::bit` (BIT n: Z ← ¬bit, operand untouched). -/
def CPU.bit (s : CPU) (n : Nat) (target : CommonOperand) : Option CPU :=
  s.applyCbTarget target (fun value =>
    let isBitSet := getBit value n
    (none, { z := some (!isBitSet), n := some false, h := some true, c := none }))

/-- `CPU::res` (RES n). -/
def CPU.res (s : CPU) (n : Nat) (target : CommonOperand) : Option CPU :=
  s.applyCbTarget target (fun value =>
    (some (setBit value n false), { z := none, n := none, h := none, c := none }))

/-- `CPU::set` (SET n). -/
def CPU.setOp (s : CPU) (n : Nat) (target : CommonOperand) : Option CPU :=
  s.applyCbTarget target (fun value =>
    (some (setBit value n true), { z := none, n := none, h := none, c := none }))

/-- `CPU::swap` (SWAP). -/
def CPU.swap (s : CPU) (target : CommonOperand) : Option CPU :=
  s.applyCbTarget target (fun value =>
    let result := swapNibbles value
    (some result,
     { z := some (result = 0), n := some false, h := some false, c := some false }))

/-- `CPU::sla`. -/
def CPU.sla (s : CPU) (target : CommonOperand) : Option CPU :=
  s.applyCbTarget target (fun value =>
    let carry := getBit value 7
    let result := (value <<< 1) % 256
    (some result,
     { z := some (result = 0), n := some false, h := some false, c := some carry }))

/-- `CPU::sra`. -/
def CPU.sra (s : CPU) (target : CommonOperand) : Option CPU :=
  s.applyCbTarget target (fun value =>
    let carry := getBit value 0
    let msb := getBit value 7
    let result := setBit (value >>> 1) 7 msb
    (some result,
     { z := some (result = 0), n := some false, h := some false, c := some carry }))

/-- `CPU::rra` / `rla` / `rlca` / `rrca`: the accumulator rotates force Z=0. -/
def CPU.rra (s : CPU) : Option CPU :=
  (s.rr (.register .A)).map (fun s => s.setZ false)

def CPU.rla (s : CPU) : Option CPU :=
  (s.rl (.register .A)).map (fun s => s.setZ false)

def CPU.rlca (s : CPU) : Option CPU :=
  (s.rlc (.register .A)).map (fun s => s.setZ false)

def CPU.rrca (s : CPU) : Option CPU :=
  (s.rrc (.register .A)).map (fun s => s.setZ false)

/-- `CPU::cpl` (A ← ¬A). -/
def CPU.cpl (s : CPU) : CPU :=
  let s := { s with a := 255 ^^^ s.a }
  s.applyFlagChange { z := none, n := some true, h := some true, c := none }

/-- `CPU::scf`. -/
def CPU.scf (s : CPU) : CPU :=
  s.applyFlagChange { z := none, n := some false, h := some false, c := some true }

/-- `CPU::ccf`. -/
def CPU.ccf (s : CPU) : CPU :=
  s.applyFlagChange { z := none, n := some false, h := some false, c := some (!s.getC) }

/-- `CPU::daa` (wrapping adjustments, applied sequentially like the source). -/
def CPU.daa (s : CPU) : CPU :=
  let (s, carry) :=
    if !s.getN then
      let (s, carry) :=
        if s.getC || s.a > 0x99 then ({ s with a := (s.a + 0x60) % 256 }, true)
        else (s, false)
      let s :=
        if s.getH || s.a &&& 0x0F > 0x09 then { s with a := (s.a + 0x06) % 256 }
        else s
      (s, carry)
    else if s.getC then
      ({ s with a := (s.a + (if s.getH then 0x9A else 0xA0)) % 256 }, true)
    else if s.getH then
      ({ s with a := (s.a + 0xFA) % 256 }, false)
    else (s, false)
  s.applyFlagChange { z := some (s.a = 0), n := none, h := some false, c := some carry }

/-- The instruction dispatch of `CPU::tick` (the big `match instruction`). -/
def CPU.executeInstruction (s : CPU) (instruction : Instruction) : Option CPU :=
  match instruction with
  | .noop => some s
  | .loadU8 dst src => do
      let (s, value) ← s.readU8Target src
      s.writeU8Target dst value
  | .halt => some { s with halted := true }
  | .jumpImmediate condition => s.jumpImmediate condition
  | .disableInterrupts => some { s with interruptsEnabled := false }
  | .enableInterrupts => some { s with interruptsEnabled := true }
  | .loadU16 dst src => do
      let (s, value) ← s.readU16Target src
      s.writeU16Target dst value
  | .loadHlWithOffsetSp => s.loadHlWithOffsetSpOp
  | .call condition => s.call condition
  | .jumpRelative condition => s.relativeJump condition
  | .ret condition => s.ret condition
  | .reti => (s.ret none).map (fun s => { s with interruptsEnabled := true })
  | .push reg => s.pushReg reg
  | .pop reg => s.popReg reg
  | .orInstr target => s.orOp target
  | .incU8 target => s.incU8 target
  | .incU16 target => some (s.incU16 target)
  | .compare target => s.compare target
  | .andInstr target => s.andOp target
  | .decU8 target => s.decU8 target
  | .decU16 target => some (s.decU16 target)
  | .xorInstr target => s.xorOp target
  | .addStackPointer => s.addStackpointerImmediate
  | .addU8 target => s.addU8Op target
  | .addU16 target => some (s.addU16Op target)
  | .sub target => s.subOp target
  | .cbSrl target => s.srl target
  | .cbRr target => s.rr target
  | .cbRl target => s.rl target
  | .cbRlc target => s.rlc target
  | .cbRrc target => s.rrc target
  | .rra => s.rra
  | .rla => s.rla
  | .rlca => s.rlca
  | .rrca => s.rrca
  | .cbBit n target => s.bit n target
  | .cbRes n target => s.res n target
  | .cbSet n target => s.setOp n target
  | .adc target => s.adc target
  | .sbc target => s.sbc target
  | .jumpAddressHL => some { s with pc := s.hl }
  | .cbSwap target => s.swap target
  | .cbSla target => s.sla target
  | .cbSra target => s.sra target
  | .cpl => some s.cpl
  | .scf => some s.scf
  | .ccf => some s.ccf
  | .daa => some s.daa
  | .rst addr => s.rst addr
  | .stop => some s

/-- `CPU::next_instruction`; a failed decode (`expect`) is `none`. -/
def CPU.nextInstruction (s : CPU) : Option (CPU × Instruction × OpcodeType × Nat) := do
  let (s, opcode) ← s.readU8
  if opcode = 0xCB then do
    let (s, cbOpcode) ← s.readU8
    let decoded ← decodeCb cbOpcode
    some (s, decoded, OpcodeType.cb, cbOpcode)
  else do
    let decoded ← decode opcode
    some (s, decoded, OpcodeType.normal, opcode)

def CPU.shouldFireInterrupt (s : CPU) (interrupt : InterruptSource) : Bool :=
  s.mmu.isInterruptEnabled interrupt && s.mmu.hasInterruptFlag interrupt

/-- `CPU::handle_interrupt`: clear IME and the IF bit, push PC, jump to the
vector, and report 5 machine cycles. -/
def CPU.handleInterrupt (s : CPU) (interrupt : InterruptSource) : Option (CPU × Nat) := do
  let s := { s with interruptsEnabled := false, mmu := s.mmu.setInterruptFlag interrupt false }
  let s ← s.stackPush s.pc
  some ({ s with pc := interruptVector interrupt }, 5)

/-- The priority loop of `CPU::maybe_process_interrupts`; the
`assert_eq!(self.interrupts_enabled, false)` after a handled interrupt is the
trailing `none` guard. -/
def CPU.processInterruptList (s : CPU) : List InterruptSource → Option (CPU × Nat)
  | [] => some (s, 0)
  | interrupt :: rest =>
      if ¬ s.shouldFireInterrupt interrupt then s.processInterruptList rest
      else
        let s := { s with halted := false }
        if s.interruptsEnabled then do
          let (s, cycles) ← s.handleInterrupt interrupt
          if s.interruptsEnabled then none else some (s, cycles)
        else s.processInterruptList rest

def interruptPerPriority : List InterruptSource :=
  [.vblank, .lcd, .timer, .serial, .joypad]

def CPU.maybeProcessInterrupts (s : CPU) : Option (CPU × Nat) :=
  s.processInterruptList interruptPerPriority

/-- The fetch/decode/execute/bill tail of `CPU::tick` (everything after the
HALT early-return; tracing and reference verification are no-ops here). -/
def CPU.fetchExecute (s : CPU) : Option (CPU × Nat) := do
  let s := { s with didTakeConditionalBranch := false }
  let (s, instruction, opcodeType, opcode) ← s.nextInstruction
  let s ← s.executeInstruction instruction
  let elapsedCycles ←
    match s.didTakeConditionalBranch, opcodeType with
    | false, .normal => some (normalOpcodeCycles opcode)
    | false, .cb => some (cbOpcodeCycles opcode)
    | true, .normal => some (normalOpcodeCyclesBranched opcode)
    | true, .cb => none
  some (s, elapsedCycles)

/-- `CPU::tick`: service interrupts, then (unless halted) fetch and execute
one instruction, returning the total machine-cycle count.  The
`assert_eq!(interrupt_cycles, 0)` of the halted branch is the `none` guard. -/
def CPU.tick (s : CPU) : Option (CPU × Nat) := do
  let (s, interruptCycles) ← s.maybeProcessInterrupts
  if s.halted then
    if interruptCycles ≠ 0 then none else some (s, 1)
  else do
    let (s, elapsedCycles) ← s.fetchExecute
    some (s, elapsedCycles + interruptCycles)

/-! ## gameboy.rs -/

/-- The orchestrator.  The optional reference-trace metadata is absent in
this model, so `verify_state` is a no-op and only the tick index remains. -/
structure Gameboy where
  cpu : CPU
  index : Nat

/-- `Gameboy::new` after header validation (which only rejects ROMs), for an
already-constructed cartridge. -/
def Gameboy.new (cartridge : Cartridge) (printSerial : Bool) (skipBootRom : Bool) : Gameboy :=
  { cpu :=
      if skipBootRom then
        let tmp := CPU.newWithoutBootRom cartridge printSerial
        { tmp with mmu := tmp.mmu.disableBootRom }
      else CPU.new cartridge printSerial
    index := 0 }

/-- The `for _ in 0..cycles` PPU loop of `Gameboy::tick`: tick the video once
per machine cycle, latching raised video interrupts into IF. -/
def advanceVideoLoop : Nat → MMU → Option MMU
  | 0, m => some m
  | n + 1, m => do
      let (v, videoInterrupts) ← m.video.tick
      let m := { m with video := v }
      let m := videoInterrupts.foldl
        (fun acc i =>
          acc.setInterruptFlag (match i with | .stat => .lcd | .vblank => .vblank) true)
        m
      advanceVideoLoop n m

/-- `Gameboy::tick`: one CPU step, PPU and timer catch-up, then the frame
poll.  The u8 subtraction `cycles - consumed_memory_cycles` is guarded
(`none` models its debug-profile underflow panic). -/
def Gameboy.tick (g : Gameboy) : Option (Gameboy × Option FrameBuffer) := do
  let (cpu, cycles) ← g.cpu.tick
  let mmu ← advanceVideoLoop cycles cpu.mmu
  let (mmu, consumedMemoryCycles) := mmu.takeConsumedCycles
  if cycles < consumedMemoryCycles then none
  else
    let mmu := mmu.maybeTickTimers (cycles - consumedMemoryCycles)
    let (v, frame) := mmu.video.tryTakeFrame
    let mmu := { mmu with video := v }
    let cpu := { cpu with mmu := mmu }
    some ({ cpu := cpu, index := g.index + 1 }, frame)

/-! ## Iteration helpers and concrete states used by the theorems -/

/-- `n` successive `Video::tick` calls (as the orchestrator performs them),
keeping only the state. -/
def tickN : Nat → Video → Option Video
  | 0, v => some v
  | n + 1, v => do
      let (v, _) ← v.tick
      tickN n v

/-- A plain 32 KiB all-zero ROM-only cartridge. -/
def testCart : Cartridge :=
  .romOnly (fun _ => 0x00) 0x8000

/-- A freshly constructed CPU (boot ROM mapped) with IE=0x01, IF=0x01, IME=1
at PC=0x0150, SP=0xFFFE — the interrupt scenario of the spec. -/
def c1cpu : CPU :=
  let s := CPU.new testCart false
  { s with pc := 0x0150
           interruptsEnabled := true
           mmu := { s.mmu with interruptEnable := 0x01, interruptFlags := 0x01 } }

/-- Like `c1cpu` but with SP=0xD000 (stack in work RAM). -/
def c1cpuWram : CPU :=
  { c1cpu with sp := 0xD000 }

/-- An MMU whose IF byte has both the VBlank and Lcd bits set. -/
def c2mmu : MMU :=
  { MMU.new testCart false with interruptFlags := 0b11 }

/-- A CPU about to service the Lcd interrupt with IF = 0b11 (VBlank not
enabled, so Lcd is the highest-priority pending-and-enabled source). -/
def c2cpu : CPU :=
  let s := CPU.new testCart false
  { s with pc := 0x0150
           sp := 0xD000
           interruptsEnabled := true
           mmu := { s.mmu with interruptEnable := 0b10, interruptFlags := 0b11 } }

/-- An MBC1 cartridge state with RAM enabled, RAM bank 1, and RAM contents
`byte i = (i / 0x1000) % 256` (so each 4 KiB block is numbered). -/
def c3cart : Mbc1 :=
  { Mbc1.new (fun _ => 0) 0x8000 with
      ramEnabled := true
      ramBank := 1
      ramData := fun i => (i / 0x1000) % 256 }

/-- A PPU with LCD, background and window all enabled (LCDC = 0xA1), at the
last Draw dot of line 0. -/
def c4video : Video :=
  { Video.new with
      lcdControl := 0xA1
      ppuMode := .mode3DrawPixels
      dotInCurrentMode := 171 }

/-- LCDC = 0xA1 at the top of a frame (for the whole-frame run). -/
def c7video : Video :=
  { Video.new with lcdControl := 0xA1 }

/-- LCDC = 0x81 (LCD and background on, window off) at the top of a frame:
a start state whose whole-frame run avoids the unimplemented window path. -/
def c7vidOk : Video :=
  { Video.new with lcdControl := 0x81 }

/-- A PPU state for the sprite-priority scenario: LCD+BG+OBJ on, background
palette id0 = light gray, sprite tile 0 solid color id 3, and sprite 0 at the
top-left corner with the bg-priority attribute bit set. -/
def c5video : Video :=
  { Video.new with
      lcdControl := 0x83
      bgPalette := Palette.writeAsByte 0x01
      vram := fun i => if i < 16 then 0xFF else 0x00
      oam := fun i => if i = 0 then 16 else if i = 1 then 8 else if i = 3 then 0x80 else 0 }

/-- A Gameboy right after construction (boot ROM active). -/
def c8gb : Gameboy :=
  Gameboy.new testCart false false

/-- A CPU whose B register holds 0xFF (for the SET-then-RES counterexample). -/
def c9cpu : CPU :=
  { CPU.new testCart false with b := 0xFF }

/-- A CPU whose C register holds 0xB2 (witness state for the register-operand
CB operations). -/
def c9witReg : CPU :=
  { CPU.new testCart false with c := 0xB2 }

/-- A CPU whose HL points into work RAM at 0xD123, which holds 0xB2 (witness
state for the (HL)-operand CB operations). -/
def c9witHl : CPU :=
  let s := CPU.new testCart false
  { s with h := 0xD1
           l := 0x23
           mmu := { s.mmu with internalRam := fun i => if i = 0x1123 then 0xB2 else 0 } }

/-- The (mode, line, dot-in-mode) the PPU FSM should occupy after `k` dots of
a frame, per the spec table: 80 OamScan + 172 Draw + 204 HBlank per line for
lines 0..143, then 456 dots per line for lines 144..153. -/
def frameSpec (k : Nat) : VideoMode × Nat × Nat :=
  if k < 65664 then
    let line := k / 456
    let r := k % 456
    if r < 80 then (.mode2OamScan, line, r)
    else if r < 252 then (.mode3DrawPixels, line, r - 80)
    else (.mode0HorizontalBlank, line, r - 252)
  else (.mode1VerticalBlank, 144 + (k - 65664) / 456, (k - 65664) % 456)

/-- The FSM projection of a PPU state. -/
def Video.fsm (v : Video) : VideoMode × Nat × Nat :=
  (v.ppuMode, v.currentLine, v.dotInCurrentMode)

/-- The states whose Draw→HBlank transition cannot hit the unimplemented
window renderer: LCD off, or background off, or window off. -/
def NoWindowDraw (v : Video) : Prop :=
  getBit v.lcdControl 7 = false ∨ getBit v.lcdControl 0 = false ∨ getBit v.lcdControl 5 = false

/-- The dot at which `Video::tick` sets the frame-ready latch: the last
VBlank dot of line 153. -/
def FrameBoundary (v : Video) : Prop :=
  v.ppuMode = .mode1VerticalBlank ∧ v.dotInCurrentMode + 1 ≥ DOTS_PER_MODE1_ROW ∧
    v.currentLine + 1 > 153

/-- The external-RAM byte of an MBC1 cartridge (0 for other cartridges);
used to observe where MBC1 writes land. -/
def Cartridge.mbc1RamByte : Cartridge → Nat → Nat
  | .mbc1 s, i => s.ramData i
  | .romOnly _ _, _ => 0

/-! ## Helper lemmas -/

theorem MMU.consumeCycle_shape (m : MMU) :
    ∃ t fl, m.consumeCycle =
      { m with timer := t, interruptFlags := fl,
               consumedReadWriteCycles := m.consumedReadWriteCycles + 1 } := by
  rcases h : Timer.maybeTickCycles m.timer 1 with ⟨t, fire⟩
  refine ⟨t, if fire then setBitMut m.interruptFlags 2 true else m.interruptFlags, ?_⟩
  unfold MMU.consumeCycle MMU.maybeTickTimers
  dsimp only
  rw [h]
  cases fire <;> rfl

theorem MMU.read_wram (m : MMU) (a : Nat) (h1 : 0xC000 ≤ a) (h2 : a ≤ 0xDFFF) :
    ∃ t fl, m.read a =
      some ({ m with timer := t, interruptFlags := fl,
                     consumedReadWriteCycles := m.consumedReadWriteCycles + 1 },
            m.internalRam (a - 0xC000)) := by
  obtain ⟨t, fl, hc⟩ := m.consumeCycle_shape
  refine ⟨t, fl, ?_⟩
  unfold MMU.read
  rw [hc]
  unfold MMU.readNoConsumeCycles
  dsimp only
  rw [if_neg (show ¬(a = 0xFF0F) by omega), if_neg (show ¬(a ≤ 0x7FFF) by omega),
    if_neg (show ¬(a ≤ 0x9FFF) by omega), if_neg (show ¬(a ≤ 0xBFFF) by omega),
    if_pos (show a ≤ 0xDFFF from h2)]
  rfl

theorem MMU.write_wram (m : MMU) (a v : Nat) (h1 : 0xC000 ≤ a) (h2 : a ≤ 0xDFFF) :
    ∃ t fl, m.write a v =
      some { m with timer := t, interruptFlags := fl,
                    consumedReadWriteCycles := m.consumedReadWriteCycles + 1,
                    internalRam := updFn m.internalRam (a - 0xC000) v } := by
  obtain ⟨t, fl, hc⟩ := m.consumeCycle_shape
  refine ⟨t, fl, ?_⟩
  unfold MMU.write
  rw [hc]
  unfold MMU.writeNoConsumeCycles
  rw [if_neg (show ¬(a = 0xFF0F) by omega), if_neg (show ¬(a ≤ 0x7FFF) by omega),
    if_neg (show ¬(a ≤ 0x9FFF) by omega), if_neg (show ¬(a ≤ 0xBFFF) by omega),
    if_pos (show a ≤ 0xDFFF from h2)]

/-- `MMU::read` of a work-RAM address, projection form: an opaque new MMU
with everything but the timer, IF byte and cycle accumulator unchanged. -/
theorem MMU.read_wram_proj (m : MMU) (a : Nat) (h1 : 0xC000 ≤ a) (h2 : a ≤ 0xDFFF) :
    ∃ m1, m.read a = some (m1, m.internalRam (a - 0xC000)) ∧
      m1.internalRam = m.internalRam ∧ m1.video = m.video ∧ m1.cartridge = m.cartridge ∧
      m1.highRam = m.highRam ∧ m1.interruptEnable = m.interruptEnable ∧
      m1.bootRomDisabled = m.bootRomDisabled := by
  obtain ⟨t, fl, hc⟩ := m.read_wram a h1 h2
  exact ⟨_, hc, rfl, rfl, rfl, rfl, rfl, rfl⟩

/-- `MMU::write` of a work-RAM address, projection form. -/
theorem MMU.write_wram_proj (m : MMU) (a v : Nat) (h1 : 0xC000 ≤ a) (h2 : a ≤ 0xDFFF) :
    ∃ m2, m.write a v = some m2 ∧
      m2.internalRam = updFn m.internalRam (a - 0xC000) v ∧ m2.video = m.video ∧
      m2.cartridge = m.cartridge ∧ m2.highRam = m.highRam ∧
      m2.interruptEnable = m.interruptEnable ∧ m2.bootRomDisabled = m.bootRomDisabled := by
  obtain ⟨t, fl, hc⟩ := m.write_wram a v h1 h2
  exact ⟨_, hc, rfl, rfl, rfl, rfl, rfl, rfl⟩

/-- C10: a bus read of the LY register (0xFF44) returns 0 when LCDC bit 7
(LCD enable) is clear and the internal current scanline when it is set, and
it leaves the PPU state unchanged. -/
theorem c10_ly_read (m : MMU) :
    (m.read 0xFF44).map (fun p => (p.1.video, p.2)) =
      some (m.video, if getBit m.video.lcdControl 7 then m.video.currentLine else 0) := by
  obtain ⟨t, fl, hc⟩ := m.consumeCycle_shape
  unfold MMU.read
  rw [hc]
  unfold MMU.readNoConsumeCycles MMU.readIo Video.readRegister
  norm_num

/-- C2 (code bug): clearing the Lcd IF bit through `set_bit_mut` wipes the
lower bits as well — with IF = 0b11, servicing Lcd leaves IF = 0b00 instead
of 0b01; the tested pure `set_bit` keeps bit 0 as documented. -/
theorem c2_if_clear_bug :
    (c2mmu.setInterruptFlag .lcd false).interruptFlags = 0b00 ∧
    (CPU.handleInterrupt c2cpu .lcd).map (fun p => (p.1.mmu.interruptFlags, p.2)) =
      some (0b00, 5) ∧
    setBit 0b11 1 false = 0b01 := by
  refine ⟨by decide, by decide, by decide⟩

/-- C3 (code bug): MBC1 external RAM is addressed with a 0x4000-byte bank
stride instead of the 0x2000-byte one: with RAM bank 1, reading 0xA000 yields
the byte at offset 0x4000 (here 0x04) while offset 0x2000 holds 0x02; a write
lands at offset 0x4000; with RAM bank 2 the access indexes past the 4×8 KiB
RAM and panics.  RAM-disabled reads do return 0xFF. -/
theorem c3_mbc1_ram_stride_bug :
    Cartridge.read (.mbc1 c3cart) 0xA000 = some 0x04 ∧
    c3cart.ramData 0x2000 = 0x02 ∧
    (Cartridge.read (.mbc1 { c3cart with ramBank := 2 }) 0xA000).isSome = false ∧
    Cartridge.read (.mbc1 { c3cart with ramEnabled := false }) 0xA000 = some 0xFF ∧
    (Cartridge.write (.mbc1 c3cart) 0xA000 0xAB).map
      (fun c => (c.mbc1RamByte 0x4000, c.mbc1RamByte 0x2000)) = some (0xAB, 0x02) := by
  refine ⟨by decide, by decide, by decide, by decide, by decide⟩

/-- C4 (code bug): with LCD, background and window all enabled
(LCDC = 0xA1), scanline rasterization reaches the unimplemented
`draw_window_for_current_line` (`todo!("Draw window")`) and panics instead of
drawing window tiles — both directly and at the Draw→HBlank tick. -/
theorem c4_window_draw_unimplemented :
    (Video.drawScanline { Video.new with lcdControl := 0xA1 } 0).isSome = false ∧
    c4video.tick.isSome = false := by
  refine ⟨by decide, by decide⟩

/-- C6 (code bug): the joypad read wipes its low nibble while composing the
selector bits (the buggy clear of bit 4 masks with 0xE0, and of bit 5 with
0xC0), so with exactly the direction selector active the register reads 0x20
regardless of any button — bit 0 is 0 even when Right is released, and
pressing Right does not change the value — and with exactly the action
selector active it reads 0x00. -/
theorem c6_joypad_low_nibble_bug :
    Joypad.read { Joypad.new with directionButtons := true } = 0x20 ∧
    Joypad.read { Joypad.new with directionButtons := true, right := true } = 0x20 ∧
    Joypad.read { Joypad.new with selectButtons := true } = 0x00 ∧
    Joypad.read { Joypad.new with selectButtons := true, a := true } = 0x00 := by
  refine ⟨by decide, by decide, by decide, by decide⟩

theorem shiftLeft_mod_eq (b : Nat) (hb : b < 8) : (1 <<< b) % 256 = 2 ^ b := by
  rw [Nat.one_shiftLeft]
  exact Nat.mod_eq_of_lt (Nat.pow_lt_pow_right (by omega) hb)

theorem getBit_eq_testBit (x b : Nat) (hb : b < 8) : getBit x b = x.testBit b := by
  unfold getBit
  rw [shiftLeft_mod_eq b hb, Nat.and_two_pow]
  cases hx : x.testBit b <;> simp [hx]

theorem mask_testBit_aux : ∀ b < 8, ∀ b' < 8,
    (255 ^^^ 2 ^ b).testBit b' = !(decide (b' = b)) := by
  decide

theorem mask_testBit (b b' : Nat) (hb : b < 8) (hb' : b' < 8) :
    (255 ^^^ (1 <<< b) % 256).testBit b' = !(decide (b' = b)) := by
  rw [shiftLeft_mod_eq b hb]
  exact mask_testBit_aux b hb b' hb'

theorem testBit_setBit_self (x b : Nat) (c : Bool) (hb : b < 8) :
    (setBit x b c).testBit b = c := by
  unfold setBit
  cases c
  · simp [Nat.testBit_land, mask_testBit b b hb hb]
  · simp [shiftLeft_mod_eq b hb, Nat.testBit_lor, Nat.testBit_two_pow_self]

theorem testBit_setBit_ne (x b b' : Nat) (c : Bool) (hb : b < 8) (hb' : b' < 8)
    (hne : b' ≠ b) : (setBit x b c).testBit b' = x.testBit b' := by
  unfold setBit
  cases c
  · simp [Nat.testBit_land, mask_testBit b b' hb hb', hne]
  · simp [shiftLeft_mod_eq b hb, Nat.testBit_lor, Nat.testBit_two_pow_of_ne (fun h => hne h.symm)]

theorem getBit_setBit_self (x b : Nat) (c : Bool) (hb : b < 8) :
    getBit (setBit x b c) b = c := by
  rw [getBit_eq_testBit _ b hb, testBit_setBit_self x b c hb]

theorem getBit_setBit_ne (x b b' : Nat) (c : Bool) (hb : b < 8) (hb' : b' < 8)
    (hne : b' ≠ b) : getBit (setBit x b c) b' = getBit x b' := by
  rw [getBit_eq_testBit _ b' hb', getBit_eq_testBit x b' hb', testBit_setBit_ne x b b' c hb hb' hne]

set_option maxRecDepth 10000 in
theorem setBit_setBit_true_false : ∀ v < 256, ∀ n < 8,
    setBit (setBit v n true) n false = setBit v n false := by
  decide

set_option maxRecDepth 10000 in
theorem swapNibbles_invol : ∀ v < 256, swapNibbles (swapNibbles v) = v := by
  decide

theorem CPU.applyFlagChange_shape (s : CPU) (fc : FlagChange) :
    ∃ f, s.applyFlagChange fc = { s with flagValue := f } := by
  unfold CPU.applyFlagChange CPU.setZ CPU.setN CPU.setH CPU.setCFlag
  rcases fc with ⟨z, n, h, c⟩
  cases z <;> cases n <;> cases h <;> cases c <;> exact ⟨_, rfl⟩

theorem CPU.getReg8_setReg8_self (s : CPU) (r : RegisterU8) (v : Nat) :
    (s.setReg8 r v).getReg8 r = v := by
  cases r <;> rfl

theorem CPU.setReg8_flagValue (s : CPU) (r : RegisterU8) (v : Nat) :
    (s.setReg8 r v).flagValue = s.flagValue := by
  cases r <;> rfl

theorem CPU.getReg8_flagUpdate (s : CPU) (r : RegisterU8) (f : Nat) :
    ({ s with flagValue := f } : CPU).getReg8 r = s.getReg8 r := by
  cases r <;> rfl

theorem CPU.applyCbTarget_register (s : CPU) (reg : RegisterU8)
    (applier : Nat → Option Nat × FlagChange) :
    s.applyCbTarget (.register reg) applier =
      some (match (applier (s.getReg8 reg)).1 with
            | none => s.applyFlagChange (applier (s.getReg8 reg)).2
            | some result => (s.applyFlagChange (applier (s.getReg8 reg)).2).setReg8 reg result) := by
  unfold CPU.applyCbTarget
  rcases h : applier (s.getReg8 reg) with ⟨mr, fc⟩
  cases mr <;> simp [h]

theorem CPU.applyFlagChange_none (s : CPU) :
    s.applyFlagChange { z := none, n := none, h := none, c := none } = s := rfl

theorem CPU.getReg8_applyFlagChange (s : CPU) (fc : FlagChange) (r : RegisterU8) :
    (s.applyFlagChange fc).getReg8 r = s.getReg8 r := by
  obtain ⟨f, hf⟩ := s.applyFlagChange_shape fc
  rw [hf, CPU.getReg8_flagUpdate]

theorem CPU.getZ_setZ (s : CPU) (b : Bool) : (s.setZ b).getZ = b := by
  unfold CPU.getZ CPU.setZ
  exact getBit_setBit_self _ 7 b (by omega)

theorem CPU.getZ_setN (s : CPU) (b : Bool) : (s.setN b).getZ = s.getZ := by
  unfold CPU.getZ CPU.setN
  exact getBit_setBit_ne _ 6 7 b (by omega) (by omega) (by omega)

theorem CPU.getZ_setH (s : CPU) (b : Bool) : (s.setH b).getZ = s.getZ := by
  unfold CPU.getZ CPU.setH
  exact getBit_setBit_ne _ 5 7 b (by omega) (by omega) (by omega)

theorem c9reg : ∀ v n, v < 256 → n < 8 →
    ∀ (s : CPU) (reg : RegisterU8), s.getReg8 reg = v →
      ((s.bit n (.register reg)).map (fun s' => (s'.getReg8 reg, s'.getZ))
          = some (v, !getBit v n)) ∧
      (((s.setOp n (.register reg)).bind (fun s' => s'.res n (.register reg))).map
          (fun s' => s'.getReg8 reg) = some (setBit v n false)) ∧
      (((s.swap (.register reg)).bind (fun s' => s'.swap (.register reg))).map
          (fun s' => s'.getReg8 reg) = some v) := by
  intro v n hv hn s reg hsv
  refine ⟨?_, ?_, ?_⟩
  · unfold CPU.bit
    rw [CPU.applyCbTarget_register]
    dsimp only
    rw [hsv]
    rw [show (s.applyFlagChange
        { z := some (!getBit v n), n := some false, h := some true, c := none })
      = ((s.setZ (!getBit v n)).setN false).setH true from rfl]
    rw [Option.map_some']
    rw [CPU.getZ_setH, CPU.getZ_setN, CPU.getZ_setZ]
    rw [show (((s.setZ (!getBit v n)).setN false).setH true).getReg8 reg = s.getReg8 reg from rfl]
    rw [hsv]
  · unfold CPU.setOp CPU.res
    rw [CPU.applyCbTarget_register]
    dsimp only
    rw [CPU.applyFlagChange_none, hsv, Option.some_bind']
    rw [CPU.applyCbTarget_register]
    dsimp only
    rw [CPU.applyFlagChange_none, CPU.getReg8_setReg8_self, Option.map_some']
    rw [CPU.getReg8_setReg8_self]
    rw [setBit_setBit_true_false v hv n hn]
  · unfold CPU.swap
    rw [CPU.applyCbTarget_register]
    dsimp only
    rw [hsv, Option.some_bind']
    rw [CPU.applyCbTarget_register]
    dsimp only
    rw [CPU.getReg8_setReg8_self, Option.map_some', CPU.getReg8_setReg8_self,
      swapNibbles_invol v hv]

theorem CPU.applyFlagChange_mmu (s : CPU) (fc : FlagChange) :
    (s.applyFlagChange fc).mmu = s.mmu := by
  obtain ⟨f, hf⟩ := s.applyFlagChange_shape fc
  rw [hf]

theorem CPU.applyFlagChange_hl (s : CPU) (fc : FlagChange) :
    (s.applyFlagChange fc).hl = s.hl := by
  obtain ⟨f, hf⟩ := s.applyFlagChange_shape fc
  rw [hf]
  rfl

theorem CPU.applyFlagChange_flagValue_mmu (s : CPU) (m : MMU) (fc : FlagChange) :
    (({ s with mmu := m } : CPU).applyFlagChange fc).flagValue =
      (s.applyFlagChange fc).flagValue := by
  rcases fc with ⟨z, n, h, c⟩
  cases z <;> cases n <;> cases h <;> cases c <;> rfl

theorem CPU.applyCbTarget_hl_wram (s : CPU) (applier : Nat → Option Nat × FlagChange)
    (h1 : 0xC000 ≤ s.hl) (h2 : s.hl ≤ 0xDFFF) :
    ∃ s', s.applyCbTarget .addressHL applier = some s' ∧
      s'.hl = s.hl ∧
      s'.flagValue =
        (s.applyFlagChange (applier (s.mmu.internalRam (s.hl - 0xC000))).2).flagValue ∧
      s'.mmu.internalRam =
        (match (applier (s.mmu.internalRam (s.hl - 0xC000))).1 with
         | none => s.mmu.internalRam
         | some result => updFn s.mmu.internalRam (s.hl - 0xC000) result) := by
  obtain ⟨m1, hrd, hram, _, _, _, _, _⟩ := MMU.read_wram_proj s.mmu s.hl h1 h2
  unfold CPU.applyCbTarget
  dsimp only
  rw [hrd]
  rcases ha : applier (s.mmu.internalRam (s.hl - 0xC000)) with ⟨mr, fc⟩
  cases mr
  case none =>
    refine ⟨({ s with mmu := m1 } : CPU).applyFlagChange fc, by simp [ha], ?_, ?_, ?_⟩
    · rw [CPU.applyFlagChange_hl]
      rfl
    · simp only [ha]
      exact CPU.applyFlagChange_flagValue_mmu s m1 fc
    · simp only [ha]
      rw [CPU.applyFlagChange_mmu]
      exact hram
  case some result =>
    obtain ⟨m2, hwr, hram2, _, _, _, _, _⟩ := MMU.write_wram_proj m1 s.hl result h1 h2
    refine ⟨{ (({ s with mmu := m1 } : CPU).applyFlagChange fc) with mmu := m2 }, ?_, ?_, ?_, ?_⟩
    · simp only [Option.bind_eq_bind, Option.some_bind, ha]
      rw [CPU.applyFlagChange_mmu, CPU.applyFlagChange_hl]
      rw [show ({ s with mmu := m1 } : CPU).hl = s.hl from rfl]
      rw [hwr]
      rfl
    · exact (CPU.applyFlagChange_hl _ fc).trans rfl
    · simp only [ha]
      exact CPU.applyFlagChange_flagValue_mmu s m1 fc
    · simp only [ha]
      rw [show ({ (({ s with mmu := m1 } : CPU).applyFlagChange fc) with mmu := m2 } :
          CPU).mmu.internalRam = m2.internalRam from rfl]
      rw [hram2, hram]

theorem updFn_self (f : Nat → Nat) (i v : Nat) : updFn f i v i = v := by
  simp [updFn]

theorem c9hl : ∀ v n, v < 256 → n < 8 →
    ∀ (s : CPU), 0xC000 ≤ s.hl → s.hl ≤ 0xDFFF →
      s.mmu.internalRam (s.hl - 0xC000) = v →
      ((s.bit n .addressHL).map (fun s' => (s'.mmu.internalRam (s.hl - 0xC000), s'.getZ))
          = some (v, !getBit v n)) ∧
      (((s.setOp n .addressHL).bind (fun s' => s'.res n .addressHL)).map
          (fun s' => s'.mmu.internalRam (s.hl - 0xC000)) = some (setBit v n false)) ∧
      (((s.swap .addressHL).bind (fun s' => s'.swap .addressHL)).map
          (fun s' => s'.mmu.internalRam (s.hl - 0xC000)) = some v) := by
  intro v n hv hn s h1 h2 hval
  refine ⟨?_, ?_, ?_⟩
  · obtain ⟨s', heq, hhl, hfv, hram⟩ := CPU.applyCbTarget_hl_wram s
      (fun value =>
        (none, { z := some (!getBit value n), n := some false, h := some true, c := none }))
      h1 h2
    unfold CPU.bit
    rw [heq, Option.map_some']
    dsimp only at hram hfv
    rw [hram, hval]
    rw [show s'.getZ = getBit s'.flagValue 7 from rfl, hfv, hval]
    rw [show (s.applyFlagChange
        { z := some (!getBit v n), n := some false, h := some true, c := none })
      = ((s.setZ (!getBit v n)).setN false).setH true from rfl]
    rw [show getBit ((((s.setZ (!getBit v n)).setN false).setH true).flagValue) 7
      = ((((s.setZ (!getBit v n)).setN false).setH true).getZ) from rfl]
    rw [CPU.getZ_setH, CPU.getZ_setN, CPU.getZ_setZ]
  · obtain ⟨s1, heq1, hhl1, hfv1, hram1⟩ := CPU.applyCbTarget_hl_wram s
      (fun value => (some (setBit value n true), { z := none, n := none, h := none, c := none }))
      h1 h2
    unfold CPU.setOp CPU.res
    rw [heq1]
    rw [Option.some_bind']
    dsimp only at hram1
    obtain ⟨s2, heq2, hhl2, hfv2, hram2⟩ := CPU.applyCbTarget_hl_wram s1
      (fun value => (some (setBit value n false), { z := none, n := none, h := none, c := none }))
      (by rw [hhl1]; exact h1) (by rw [hhl1]; exact h2)
    rw [heq2, Option.map_some']
    dsimp only at hram2
    rw [hram2, hhl1, hram1, hval, updFn_self, updFn_self]
    rw [setBit_setBit_true_false v hv n hn]
  · obtain ⟨s1, heq1, hhl1, hfv1, hram1⟩ := CPU.applyCbTarget_hl_wram s
      (fun value => (some (swapNibbles value),
        { z := some (decide (swapNibbles value = 0)), n := some false, h := some false,
          c := some false })) h1 h2
    unfold CPU.swap
    rw [heq1]
    rw [Option.some_bind']
    dsimp only at hram1
    obtain ⟨s2, heq2, hhl2, hfv2, hram2⟩ := CPU.applyCbTarget_hl_wram s1
      (fun value => (some (swapNibbles value),
        { z := some (decide (swapNibbles value = 0)), n := some false, h := some false,
          c := some false })) (by rw [hhl1]; exact h1) (by rw [hhl1]; exact h2)
    rw [heq2, Option.map_some']
    dsimp only at hram2
    rw [hram2, hhl1, hram1, hval, updFn_self, updFn_self]
    rw [swapNibbles_invol v hv]

theorem updFn_ne (f : Nat → Nat) (i v j : Nat) (h : j ≠ i) : updFn f i v j = f j := by
  simp [updFn, h]

theorem CPU.processInterruptList_find (s : CPU) (l : List InterruptSource)
    (i : InterruptSource) (hfind : l.find? s.shouldFireInterrupt = some i)
    (hime : s.interruptsEnabled = true) :
    s.processInterruptList l =
      (do
        let (s', cycles) ← CPU.handleInterrupt { s with halted := false } i
        if s'.interruptsEnabled then none else some (s', cycles)) := by
  induction l with
  | nil => simp [List.find?] at hfind
  | cons head rest ih =>
      by_cases hh : s.shouldFireInterrupt head
      · rw [List.find?_cons_of_pos _ hh] at hfind
        obtain rfl : head = i := by injection hfind
        unfold CPU.processInterruptList
        rw [if_neg (by simp [hh]), if_pos (by exact hime)]
      · rw [List.find?_cons_of_neg _ (by simp [hh])] at hfind
        unfold CPU.processInterruptList
        rw [if_pos (by simp [hh])]
        exact ih hfind

theorem CPU.handleInterrupt_wram (s : CPU) (i : InterruptSource)
    (hsp1 : 0xC002 ≤ s.sp) (hsp2 : s.sp ≤ 0xE000) :
    ∃ s1, s.handleInterrupt i = some (s1, 5) ∧
      s1.pc = interruptVector i ∧
      s1.interruptsEnabled = false ∧
      s1.halted = s.halted ∧
      s1.sp = s.sp - 2 ∧
      s1.mmu.internalRam (s.sp - 2 - 0xC000) = s.pc &&& 0xFF ∧
      s1.mmu.internalRam (s.sp - 1 - 0xC000) = (s.pc &&& 0xFF00) >>> 8 := by
  have e1 : (s.sp + 65534) % 65536 = s.sp - 2 := by omega
  obtain ⟨m1, hw1, hram1, _, _, _, _, _⟩ :=
    MMU.write_wram_proj (s.mmu.setInterruptFlag i false) (s.sp - 2) (s.pc &&& 0xFF)
      (by omega) (by omega)
  obtain ⟨m2, hw2, hram2, _, _, _, _, _⟩ :=
    MMU.write_wram_proj m1 (s.sp - 2 + 1) ((s.pc &&& 0xFF00) >>> 8) (by omega) (by omega)
  unfold CPU.handleInterrupt CPU.stackPush MMU.writeWord
  dsimp only
  rw [e1, hw1]
  simp only [Option.bind_eq_bind, Option.some_bind]
  rw [show (s.sp - 2 + 1) % 65536 = s.sp - 2 + 1 from by omega]
  rw [hw2]
  simp only [Option.some_bind]
  refine ⟨_, rfl, rfl, rfl, rfl, rfl, ?_, ?_⟩
  · rw [hram2, updFn_ne _ _ _ _ (by omega), hram1, updFn_self]
  · rw [hram2, show s.sp - 1 - 0xC000 = s.sp - 2 + 1 - 0xC000 from by omega, updFn_self]

/-- C1 (amended): when an enabled, requested interrupt source is found with
IME set (CPU not halted, SP inside work RAM), the tick pushes PC, jumps to
the vector and clears IME, but it then immediately fetches and executes the
handler's first instruction in the same tick, returning 5 plus that
instruction's cost rather than exactly 5 machine cycles. -/
theorem c1_interrupt_tick (s : CPU) (i : InterruptSource)
    (_hhalt : s.halted = false) (hime : s.interruptsEnabled = true)
    (hfind : interruptPerPriority.find? s.shouldFireInterrupt = some i)
    (hsp1 : 0xC002 ≤ s.sp) (hsp2 : s.sp ≤ 0xE000) :
    ∃ s1, s.maybeProcessInterrupts = some (s1, 5) ∧
      s1.pc = interruptVector i ∧
      s1.interruptsEnabled = false ∧
      s1.halted = false ∧
      s1.sp = s.sp - 2 ∧
      s1.mmu.internalRam (s.sp - 2 - 0xC000) = s.pc &&& 0xFF ∧
      s1.mmu.internalRam (s.sp - 1 - 0xC000) = (s.pc &&& 0xFF00) >>> 8 ∧
      CPU.tick s = (CPU.fetchExecute s1).map (fun p => (p.1, p.2 + 5)) := by
  obtain ⟨s1, hh, hpc, hien, hhalted, hsp, hlow, hhigh⟩ :=
    CPU.handleInterrupt_wram ({ s with halted := false } : CPU) i hsp1 hsp2
  have hmpi : s.maybeProcessInterrupts = some (s1, 5) := by
    unfold CPU.maybeProcessInterrupts
    rw [CPU.processInterruptList_find s interruptPerPriority i hfind hime]
    rw [hh]
    simp only [Option.bind_eq_bind, Option.some_bind]
    rw [if_neg (by rw [hien]; exact Bool.false_ne_true)]
  refine ⟨s1, hmpi, hpc, hien, hhalted, hsp, hlow, hhigh, ?_⟩
  unfold CPU.tick
  rw [hmpi]
  simp only [Option.bind_eq_bind, Option.some_bind]
  rw [if_neg (by rw [hhalted]; exact Bool.false_ne_true)]
  cases hfe : CPU.fetchExecute s1 with
  | none => simp [hfe]
  | some p => simp [hfe]

theorem Video.drawBgPixel_fbOnly (v : Video) (line x : Nat) :
    ∃ fb, v.drawBgPixel line x = { v with frameBuffer := fb } :=
  ⟨_, rfl⟩

theorem Video.spritePixelStep_fbOnly (v : Video) (line : Nat) (sprite : SpriteObject)
    (rowAddr xStart cp : Nat) :
    ∃ fb, v.spritePixelStep line sprite rowAddr xStart cp = { v with frameBuffer := fb } := by
  unfold Video.spritePixelStep
  dsimp only
  repeat' split
  all_goals exact ⟨_, rfl⟩

theorem foldl_fbOnly {α : Type} (f : Video → α → Video)
    (hf : ∀ u x, ∃ fb, f u x = { u with frameBuffer := fb }) :
    ∀ (l : List α) (v : Video), ∃ fb, l.foldl f v = { v with frameBuffer := fb }
  | [], v => ⟨v.frameBuffer, rfl⟩
  | a :: t, v => by
      obtain ⟨fb1, h1⟩ := hf v a
      obtain ⟨fb2, h2⟩ := foldl_fbOnly f hf t (f v a)
      exact ⟨fb2, by rw [List.foldl_cons, h2, h1]⟩

theorem Video.drawBgForCurrentLine_fbOnly (v : Video) (line : Nat) :
    ∃ fb, v.drawBgForCurrentLine line = { v with frameBuffer := fb } :=
  foldl_fbOnly _ (fun u x => u.drawBgPixel_fbOnly line x) _ v

theorem Video.drawSprite_fbOnly (v : Video) (line : Nat) (p : SpriteObject × Nat) :
    ∃ fb, v.drawSprite line p = { v with frameBuffer := fb } :=
  foldl_fbOnly _ (fun u cp => u.spritePixelStep_fbOnly line p.1 _ _ cp) _ v

theorem Video.drawSpritesForCurrentLine_fbOnly (v : Video) (line : Nat) :
    ∃ fb, v.drawSpritesForCurrentLine line = { v with frameBuffer := fb } :=
  foldl_fbOnly _ (fun u p => u.drawSprite_fbOnly line p) _ v

set_option maxRecDepth 8000 in
/-- A successful `draw_scanline` only changes the framebuffer. -/
theorem Video.drawScanline_shape (v : Video) (line : Nat) (v2 : Video)
    (h : v.drawScanline line = some v2) : ∃ fb, v2 = { v with frameBuffer := fb } := by
  unfold Video.drawScanline at h
  by_cases hlcd : getBit v.lcdControl 7
  · rw [if_neg (by simp [hlcd])] at h
    by_cases hbg : getBit v.lcdControl 0
    · rw [if_pos hbg] at h
      obtain ⟨fb1, h1⟩ := v.drawBgForCurrentLine_fbOnly line
      by_cases hwin : getBit v.lcdControl 5
      · rw [if_pos (by rw [h1]; exact hwin)] at h
        rw [h1] at h
        exact absurd h (by simp [Video.drawWindowForCurrentLine])
      · rw [if_neg (by rw [h1]; exact hwin)] at h
        rw [h1] at h
        simp only [Option.bind_eq_bind, Option.some_bind] at h
        by_cases hobj : getBit v.lcdControl 1
        · rw [if_pos (by exact hobj)] at h
          obtain ⟨fb2, h2⟩ := Video.drawSpritesForCurrentLine_fbOnly
            ({ v with frameBuffer := fb1 } : Video) line
          rw [h2] at h
          exact ⟨fb2, by injection h with h'; rw [← h']⟩
        · rw [if_neg (by exact hobj)] at h
          exact ⟨fb1, by injection h with h'; rw [← h']⟩
    · rw [if_neg hbg] at h
      simp only [Option.bind_eq_bind, Option.some_bind] at h
      by_cases hobj : getBit v.lcdControl 1
      · rw [if_pos (by exact hobj)] at h
        obtain ⟨fb2, h2⟩ := Video.drawSpritesForCurrentLine_fbOnly v line
        rw [h2] at h
        exact ⟨fb2, by injection h with h'; rw [← h']⟩
      · rw [if_neg (by exact hobj)] at h
        exact ⟨v.frameBuffer, by injection h with h'; rw [← h']⟩
  · rw [if_pos (by simp [hlcd])] at h
    exact ⟨v.frameBuffer, by injection h with h'; rw [← h']⟩

theorem Video.tick_latch (v v' : Video) (ints : List VideoInterrupt)
    (h : v.tick = some (v', ints)) :
    (FrameBoundary v → v'.isFrameReady = true) ∧
    (¬ FrameBoundary v → v'.isFrameReady = v.isFrameReady) := by
  unfold Video.tick at h
  dsimp only at h
  cases hm : v.ppuMode
  case mode2OamScan =>
    rw [hm] at h
    dsimp only at h
    refine ⟨fun hfb => absurd hfb.1 (by rw [hm]; simp), fun _ => ?_⟩
    by_cases hd : v.dotInCurrentMode + 1 ≥ DOTS_PER_MODE2
    · rw [if_pos hd] at h
      simp only [Option.bind_eq_bind, Option.some_bind, Option.some.injEq,
        Prod.mk.injEq] at h
      rw [← h.1]
    · rw [if_neg hd] at h
      simp only [Option.bind_eq_bind, Option.some_bind, Option.some.injEq,
        Prod.mk.injEq] at h
      rw [← h.1]
  case mode3DrawPixels =>
    rw [hm] at h
    dsimp only at h
    refine ⟨fun hfb => absurd hfb.1 (by rw [hm]; simp), fun _ => ?_⟩
    by_cases hd : v.dotInCurrentMode + 1 ≥ DOTS_PER_MODE3
    · rw [if_pos hd] at h
      rcases hds : Video.drawScanline
          ({ v with ppuMode := VideoMode.mode3DrawPixels, dotInCurrentMode := 0 } : Video)
          v.currentLine with _ | v2
      · rw [hds] at h
        simp at h
      · rw [hds] at h
        obtain ⟨fb, rfl⟩ := Video.drawScanline_shape _ _ _ hds
        simp only [Option.bind_eq_bind, Option.some_bind, Option.some.injEq,
          Prod.mk.injEq] at h
        rw [← h.1]
    · rw [if_neg hd] at h
      simp only [Option.bind_eq_bind, Option.some_bind, Option.some.injEq,
        Prod.mk.injEq] at h
      rw [← h.1]
  case mode0HorizontalBlank =>
    rw [hm] at h
    dsimp only at h
    refine ⟨fun hfb => absurd hfb.1 (by rw [hm]; simp), fun _ => ?_⟩
    by_cases hd : v.dotInCurrentMode + 1 ≥ DOTS_PER_MODE0
    · rw [if_pos hd] at h
      by_cases hline : v.currentLine + 1 > 143
      · rw [if_pos hline] at h
        simp only [Option.bind_eq_bind, Option.some_bind, Option.some.injEq,
          Prod.mk.injEq] at h
        rw [← h.1]
      · rw [if_neg hline] at h
        simp only [Option.bind_eq_bind, Option.some_bind, Option.some.injEq,
          Prod.mk.injEq] at h
        rw [← h.1]
    · rw [if_neg hd] at h
      simp only [Option.bind_eq_bind, Option.some_bind, Option.some.injEq,
        Prod.mk.injEq] at h
      rw [← h.1]
  case mode1VerticalBlank =>
    rw [hm] at h
    dsimp only at h
    by_cases hd : v.dotInCurrentMode + 1 ≥ DOTS_PER_MODE1_ROW
    · rw [if_pos hd] at h
      by_cases hline : v.currentLine + 1 > 153
      · rw [if_pos hline] at h
        simp only [Option.bind_eq_bind, Option.some_bind, Option.some.injEq,
          Prod.mk.injEq] at h
        refine ⟨fun _ => by rw [← h.1], fun hnfb => absurd ⟨hm, hd, hline⟩ hnfb⟩
      · rw [if_neg hline] at h
        simp only [Option.bind_eq_bind, Option.some_bind, Option.some.injEq,
          Prod.mk.injEq] at h
        refine ⟨fun hfb => absurd hfb.2.2 hline, fun _ => by rw [← h.1]⟩
    · rw [if_neg hd] at h
      simp only [Option.bind_eq_bind, Option.some_bind, Option.some.injEq,
        Prod.mk.injEq] at h
      refine ⟨fun hfb => absurd hfb.2.1 hd, fun _ => by rw [← h.1]⟩

theorem MMU.maybeTickTimers_video (m : MMU) (n : Nat) :
    (m.maybeTickTimers n).video = m.video := by
  unfold MMU.maybeTickTimers
  rcases m.timer.maybeTickCycles n with ⟨t, fire⟩
  cases fire <;> rfl

theorem Video.tryTakeFrame_spec (v : Video) :
    (v.tryTakeFrame).2.isSome = v.isFrameReady ∧ (v.tryTakeFrame).1.isFrameReady = false := by
  unfold Video.tryTakeFrame
  by_cases hl : v.isFrameReady <;> simp [hl]

theorem c8part3 : ∀ (g g' : Gameboy) (r : Option FrameBuffer) (cpu1 : CPU) (cycles : Nat),
    Gameboy.tick g = some (g', r) → CPU.tick g.cpu = some (cpu1, cycles) →
    ∃ m', advanceVideoLoop cycles cpu1.mmu = some m' ∧
      r.isSome = m'.video.isFrameReady ∧
      g'.cpu.mmu.video.isFrameReady = false := by
  intro g g' r cpu1 cycles hg hc
  unfold Gameboy.tick at hg
  rw [hc] at hg
  simp only [Option.bind_eq_bind, Option.some_bind] at hg
  rcases ha : advanceVideoLoop cycles cpu1.mmu with _ | m'
  · rw [ha] at hg
    simp at hg
  · rw [ha] at hg
    simp only [Option.some_bind] at hg
    by_cases hcy : cycles < m'.takeConsumedCycles.2
    · rw [if_pos hcy] at hg
      simp at hg
    · rw [if_neg hcy] at hg
      rcases htf : (MMU.maybeTickTimers m'.takeConsumedCycles.1
          (cycles - m'.takeConsumedCycles.2)).video.tryTakeFrame with ⟨v2, frame⟩
      rw [htf] at hg
      simp only [Option.some.injEq, Prod.mk.injEq] at hg
      obtain ⟨hg', hr⟩ := hg
      have hvid : (MMU.maybeTickTimers m'.takeConsumedCycles.1
          (cycles - m'.takeConsumedCycles.2)).video = m'.video :=
        (MMU.maybeTickTimers_video _ _).trans rfl
      have hspec := Video.tryTakeFrame_spec (MMU.maybeTickTimers m'.takeConsumedCycles.1
          (cycles - m'.takeConsumedCycles.2)).video
      rw [htf] at hspec
      refine ⟨m', rfl, ?_, ?_⟩
      · rw [← hr, hspec.1, hvid]
      · rw [← hg']
        exact hspec.2

theorem Palette.resolveForSprite_eq (p : Palette) (cid : Nat) (h : cid ≠ 0) :
    p.resolveForSpriteFromColorId cid = some (p.resolveForBgFromColorId cid) := by
  unfold Palette.resolveForSpriteFromColorId Palette.resolveForBgFromColorId
  match cid with
  | 0 => exact absurd rfl h
  | 1 => rfl
  | 2 => rfl
  | n + 3 => rfl

/-- C5 (amended): in the sprite pass, a priority-flagged sprite's
non-transparent pixel is written iff the framebuffer pixel already at
(x, line) equals the screen colour of palette white — the post-palette
comparison the code performs — not iff the background colour id there is 0;
sprite colour id 0 is never drawn. -/
theorem c5_sprite_priority (v : Video) (line : Nat) (sprite : SpriteObject) (rowAddr xStart cp : Nat)
    (hx : (xStart + cp) % 256 < SCREEN_WIDTH)
    (hpr : sprite.priority = true) :
    (v.readColorId rowAddr (if sprite.xFlip then 7 - cp else cp) = 0 →
      v.spritePixelStep line sprite rowAddr xStart cp = v) ∧
    (v.readColorId rowAddr (if sprite.xFlip then 7 - cp else cp) ≠ 0 →
      (v.frameBuffer.getPixel ((xStart + cp) % 256) line = toScreenColor .white →
        v.spritePixelStep line sprite rowAddr xStart cp =
          { v with frameBuffer := v.frameBuffer.setPixel ((xStart + cp) % 256) line (toScreenColor ((if sprite.usesObp1 then v.objPalette1 else v.objPalette0).resolveForBgFromColorId (v.readColorId rowAddr (if sprite.xFlip then 7 - cp else cp)))) }) ∧
      (v.frameBuffer.getPixel ((xStart + cp) % 256) line ≠ toScreenColor .white →
        v.spritePixelStep line sprite rowAddr xStart cp = v)) := by
  unfold Video.spritePixelStep
  dsimp only
  rw [if_neg (Nat.not_le.mpr hx)]
  constructor
  · intro h0
    rw [h0]
    rfl
  · intro hne
    rw [Palette.resolveForSprite_eq _ _ hne]
    dsimp only
    constructor
    · intro hw
      rw [if_pos (Or.inr hw)]
    · intro hnw
      rw [if_neg (by simp [hpr, hnw])]

set_option maxRecDepth 100000 in
/-- C5 counterexample: a background of colour id 0 displayed as light gray
(BGP = 0x01) blocks a priority sprite, because the comparison is against
white RGB rather than against background colour id 0. -/
theorem c5_sprite_priority_counterexample :
    (c5video.drawScanline 0).map (fun v => v.frameBuffer.getPixel 0 0)
      = some (Rgb.newGray 160) ∧
    c5video.readColorId 0x9000 0 = 0 ∧
    c5video.readColorId 0x8000 0 = 3 ∧
    (c5video.readSpriteObject 0).priority = true ∧
    Rgb.newGray 160 ≠ toScreenColor .white := by
  refine ⟨by decide, by decide, by decide, by decide, by decide⟩

set_option maxRecDepth 100000 in
/-- Witness for `c5_sprite_priority` on the `c5video` scenario after the
background pass. -/
theorem c5_sprite_priority_witness :
    (c5video.drawBgForCurrentLine 0).spritePixelStep 0 (c5video.readSpriteObject 0) 0x8000 0 0
      = c5video.drawBgForCurrentLine 0 :=
  ((c5_sprite_priority (c5video.drawBgForCurrentLine 0) 0 (c5video.readSpriteObject 0) 0x8000 0 0
    (by decide) (by decide)).2 (by decide)).2 (by decide)

set_option maxRecDepth 100000 in
/-- C1 counterexample: with IE=IF=0x01 and IME on at PC=0x0150 under the
boot ROM, the tick also runs the handler's first instruction (LD A,0x19 at
0x0040) and returns 7 machine cycles, not 5. -/
theorem c1_interrupt_tick_counterexample :
    (CPU.tick c1cpu).map (fun p => (p.1.pc, p.1.a, p.1.sp, p.1.interruptsEnabled, p.2))
      = some (0x0042, 0x19, 0xFFFC, false, 7) := by
  decide

/-- Witness for `c1_interrupt_tick` at the concrete state `c1cpuWram`. -/
theorem c1_interrupt_tick_witness :
    (c1cpuWram.halted = false ∧ c1cpuWram.interruptsEnabled = true ∧
     interruptPerPriority.find? c1cpuWram.shouldFireInterrupt = some .vblank ∧
     0xC002 ≤ c1cpuWram.sp ∧ c1cpuWram.sp ≤ 0xE000) ∧
    ∃ s1, c1cpuWram.maybeProcessInterrupts = some (s1, 5) ∧
      s1.pc = interruptVector .vblank ∧
      s1.interruptsEnabled = false ∧
      s1.halted = false ∧
      s1.sp = c1cpuWram.sp - 2 ∧
      s1.mmu.internalRam (c1cpuWram.sp - 2 - 0xC000) = c1cpuWram.pc &&& 0xFF ∧
      s1.mmu.internalRam (c1cpuWram.sp - 1 - 0xC000) = (c1cpuWram.pc &&& 0xFF00) >>> 8 ∧
      CPU.tick c1cpuWram = (CPU.fetchExecute s1).map (fun p => (p.1, p.2 + 5)) :=
  ⟨⟨by decide, by decide, by decide, by decide, by decide⟩,
   c1_interrupt_tick c1cpuWram .vblank (by decide) (by decide) (by decide) (by decide) (by decide)⟩

/-- C8 (amended): the orchestrator returns a framebuffer iff the PPU
frame-ready latch is set after the video advance, and the ticks set the
latch exactly at frame boundaries; but `Video::new` starts with the latch
already true, so the very first orchestrator tick returns a frame even
though no frame boundary occurred during it. -/
theorem c8_frame_latch :
    Video.new.isFrameReady = true ∧
    (∀ v v' ints, Video.tick v = some (v', ints) →
      (FrameBoundary v → v'.isFrameReady = true) ∧
      (¬ FrameBoundary v → v'.isFrameReady = v.isFrameReady)) ∧
    (∀ g g' r cpu1 cycles,
      Gameboy.tick g = some (g', r) → CPU.tick g.cpu = some (cpu1, cycles) →
      ∃ m', advanceVideoLoop cycles cpu1.mmu = some m' ∧
        r.isSome = m'.video.isFrameReady ∧
        g'.cpu.mmu.video.isFrameReady = false) :=
  ⟨rfl, fun v v' ints h => Video.tick_latch v v' ints h, c8part3⟩

/-- Witness for `c8_frame_latch` at `Video.new` and the freshly constructed
`c8gb`. -/
theorem c8_frame_latch_witness :
    (∃ p, Video.tick Video.new = some p ∧ p.1.isFrameReady = Video.new.isFrameReady) ∧
    (∃ q c, Gameboy.tick c8gb = some q ∧ CPU.tick c8gb.cpu = some c ∧
      ∃ m', advanceVideoLoop c.2 c.1.mmu = some m' ∧
        q.2.isSome = m'.video.isFrameReady ∧
        q.1.cpu.mmu.video.isFrameReady = false) := by
  constructor
  · rcases hp : Video.tick Video.new with _ | p
    · exact absurd (congrArg Option.isSome hp) (by decide)
    · refine ⟨p, rfl, (c8_frame_latch.2.1 Video.new p.1 p.2 hp).2 ?_⟩
      unfold FrameBoundary
      decide
  · rcases hc : CPU.tick c8gb.cpu with _ | c
    · exact absurd (congrArg Option.isSome hc) (by decide)
    · rcases hg : Gameboy.tick c8gb with _ | q
      · exact absurd (congrArg Option.isSome hg) (by decide)
      · exact ⟨q, c, rfl, rfl, c8_frame_latch.2.2 c8gb q.1 q.2 c.1 c.2 hg hc⟩

set_option maxRecDepth 100000 in
/-- C8 counterexample: the very first orchestrator tick after construction
returns Some framebuffer (and hands the latch back cleared). -/
theorem c8_frame_latch_counterexample :
    (Gameboy.tick c8gb).map
        (fun p => (p.2.isSome, p.1.cpu.mmu.video.isFrameReady))
      = some (true, false) := by
  decide

/-- C9 (amended): BIT n leaves the operand unchanged and sets Z to the
negation of bit n, and SWAP twice restores the operand, for both register
and (HL) operands; but SET n followed by RES n yields `set_bit v n false` —
v with exactly bit n cleared and every other bit intact (RES uses the
correctly parenthesized pure `set_bit`, not the buggy `set_bit_mut`) —
which differs from v whenever bit n of v was set, so the operand does not
return to v. -/
theorem c9_cb_bit_ops :
    (∀ v n, v < 256 → n < 8 →
      ∀ (s : CPU) (reg : RegisterU8), s.getReg8 reg = v →
        ((s.bit n (.register reg)).map (fun s' => (s'.getReg8 reg, s'.getZ))
            = some (v, !getBit v n)) ∧
        (((s.setOp n (.register reg)).bind (fun s' => s'.res n (.register reg))).map
            (fun s' => s'.getReg8 reg) = some (setBit v n false)) ∧
        (((s.swap (.register reg)).bind (fun s' => s'.swap (.register reg))).map
            (fun s' => s'.getReg8 reg) = some v)) ∧
    (∀ v n, v < 256 → n < 8 →
      ∀ (s : CPU), 0xC000 ≤ s.hl → s.hl ≤ 0xDFFF →
        s.mmu.internalRam (s.hl - 0xC000) = v →
        ((s.bit n .addressHL).map (fun s' => (s'.mmu.internalRam (s.hl - 0xC000), s'.getZ))
            = some (v, !getBit v n)) ∧
        (((s.setOp n .addressHL).bind (fun s' => s'.res n .addressHL)).map
            (fun s' => s'.mmu.internalRam (s.hl - 0xC000)) = some (setBit v n false)) ∧
        (((s.swap .addressHL).bind (fun s' => s'.swap .addressHL)).map
            (fun s' => s'.mmu.internalRam (s.hl - 0xC000)) = some v)) :=
  ⟨c9reg, c9hl⟩

/-- C9 counterexample: with B = 0xFF, SET 0,B then RES 0,B leaves
B = 0xFE ≠ 0xFF. -/
theorem c9_cb_bit_ops_counterexample :
    ((c9cpu.setOp 0 (.register .B)).bind (fun s' => s'.res 0 (.register .B))).map
        (fun s' => s'.getReg8 .B) = some 0xFE ∧
    c9cpu.b = 0xFF ∧ setBit 0xFF 0 false = 0xFE :=
  ⟨by decide, rfl, by decide⟩

/-- Witness for `c9_cb_bit_ops` at v = 0xB2, n = 4 on register C and on
(HL) pointing into work RAM. -/
theorem c9_cb_bit_ops_witness :
    (0xB2 < 256 ∧ 4 < 8 ∧ c9witReg.getReg8 .C = 0xB2 ∧
     0xC000 ≤ c9witHl.hl ∧ c9witHl.hl ≤ 0xDFFF ∧
     c9witHl.mmu.internalRam (c9witHl.hl - 0xC000) = 0xB2) ∧
    (((c9witReg.bit 4 (.register .C)).map (fun s' => (s'.getReg8 .C, s'.getZ))
        = some (0xB2, !getBit 0xB2 4)) ∧
     (((c9witReg.setOp 4 (.register .C)).bind (fun s' => s'.res 4 (.register .C))).map
        (fun s' => s'.getReg8 .C) = some (setBit 0xB2 4 false)) ∧
     (((c9witReg.swap (.register .C)).bind (fun s' => s'.swap (.register .C))).map
        (fun s' => s'.getReg8 .C) = some 0xB2)) ∧
    (((c9witHl.bit 4 .addressHL).map
          (fun s' => (s'.mmu.internalRam (c9witHl.hl - 0xC000), s'.getZ))
        = some (0xB2, !getBit 0xB2 4)) ∧
     (((c9witHl.setOp 4 .addressHL).bind (fun s' => s'.res 4 .addressHL)).map
        (fun s' => s'.mmu.internalRam (c9witHl.hl - 0xC000)) = some (setBit 0xB2 4 false)) ∧
     (((c9witHl.swap .addressHL).bind (fun s' => s'.swap .addressHL)).map
        (fun s' => s'.mmu.internalRam (c9witHl.hl - 0xC000)) = some 0xB2)) :=
  ⟨⟨by decide, by decide, by decide, by decide, by decide, by decide⟩,
   c9_cb_bit_ops.1 0xB2 4 (by decide) (by decide) c9witReg .C (by decide),
   c9_cb_bit_ops.2 0xB2 4 (by decide) (by decide) c9witHl (by decide) (by decide) (by decide)⟩

set_option maxRecDepth 8000 in
theorem Video.drawScanline_isSome (v : Video) (line : Nat)
    (hwin : ¬ getBit v.lcdControl 5 = true) :
    (v.drawScanline line).isSome = true := by
  unfold Video.drawScanline
  by_cases hlcd : getBit v.lcdControl 7
  · rw [if_neg (by simp [hlcd])]
    by_cases hbg : getBit v.lcdControl 0
    · rw [if_pos hbg]
      obtain ⟨fb1, h1⟩ := v.drawBgForCurrentLine_fbOnly line
      rw [if_neg (by rw [h1]; exact hwin)]
      rw [h1]
      simp only [Option.bind_eq_bind, Option.some_bind]
      by_cases hobj : getBit v.lcdControl 1
      · rw [if_pos (by exact hobj)]
        rfl
      · rw [if_neg (by exact hobj)]
        rfl
    · rw [if_neg hbg]
      simp only [Option.bind_eq_bind, Option.some_bind]
      by_cases hobj : getBit v.lcdControl 1
      · rw [if_pos (by exact hobj)]
        rfl
      · rw [if_neg (by exact hobj)]
        rfl
  · rw [if_pos (by simp [hlcd])]
    rfl

theorem Video.tick_isSome (v : Video) (hwin : ¬ getBit v.lcdControl 5 = true) :
    (v.tick).isSome = true := by
  unfold Video.tick
  dsimp only
  cases hm : v.ppuMode
  case mode2OamScan =>
    dsimp only
    by_cases hd : v.dotInCurrentMode + 1 ≥ DOTS_PER_MODE2
    · rw [if_pos hd]
      rfl
    · rw [if_neg hd]
      rfl
  case mode3DrawPixels =>
    dsimp only
    by_cases hd : v.dotInCurrentMode + 1 ≥ DOTS_PER_MODE3
    · rw [if_pos hd]
      rcases hds : Video.drawScanline
          ({ v with ppuMode := VideoMode.mode3DrawPixels, dotInCurrentMode := 0 } : Video)
          v.currentLine with _ | v2
      · have hs := Video.drawScanline_isSome
          ({ v with ppuMode := VideoMode.mode3DrawPixels, dotInCurrentMode := 0 } : Video)
          v.currentLine hwin
        rw [hds] at hs
        exact absurd hs (by simp)
      · rfl
    · rw [if_neg hd]
      rfl
  case mode0HorizontalBlank =>
    dsimp only
    by_cases hd : v.dotInCurrentMode + 1 ≥ DOTS_PER_MODE0
    · rw [if_pos hd]
      by_cases hline : v.currentLine + 1 > 143
      · rw [if_pos hline]
        rfl
      · rw [if_neg hline]
        rfl
    · rw [if_neg hd]
      rfl
  case mode1VerticalBlank =>
    dsimp only
    by_cases hd : v.dotInCurrentMode + 1 ≥ DOTS_PER_MODE1_ROW
    · rw [if_pos hd]
      by_cases hline : v.currentLine + 1 > 153
      · rw [if_pos hline]
        rfl
      · rw [if_neg hline]
        rfl
    · rw [if_neg hd]
      rfl

set_option maxRecDepth 4000 in
theorem Video.tick_step (v : Video) (p : Video × List VideoInterrupt)
    (h : v.tick = some p) :
    p.1.lcdControl = v.lcdControl ∧
    p.1.lyc = v.lyc ∧
    (v.ppuMode = .mode2OamScan →
      (¬ v.dotInCurrentMode + 1 ≥ DOTS_PER_MODE2 →
        p.1.ppuMode = .mode2OamScan ∧ p.1.currentLine = v.currentLine ∧
        p.1.dotInCurrentMode = v.dotInCurrentMode + 1 ∧ p.1.isFrameReady = v.isFrameReady) ∧
      (v.dotInCurrentMode + 1 ≥ DOTS_PER_MODE2 →
        p.1.ppuMode = .mode3DrawPixels ∧ p.1.currentLine = v.currentLine ∧
        p.1.dotInCurrentMode = 0 ∧ p.1.isFrameReady = v.isFrameReady)) ∧
    (v.ppuMode = .mode3DrawPixels →
      (¬ v.dotInCurrentMode + 1 ≥ DOTS_PER_MODE3 →
        p.1.ppuMode = .mode3DrawPixels ∧ p.1.currentLine = v.currentLine ∧
        p.1.dotInCurrentMode = v.dotInCurrentMode + 1 ∧ p.1.isFrameReady = v.isFrameReady) ∧
      (v.dotInCurrentMode + 1 ≥ DOTS_PER_MODE3 →
        p.1.ppuMode = .mode0HorizontalBlank ∧ p.1.currentLine = v.currentLine ∧
        p.1.dotInCurrentMode = 0 ∧ p.1.isFrameReady = v.isFrameReady)) ∧
    (v.ppuMode = .mode0HorizontalBlank →
      (¬ v.dotInCurrentMode + 1 ≥ DOTS_PER_MODE0 →
        p.1.ppuMode = .mode0HorizontalBlank ∧ p.1.currentLine = v.currentLine ∧
        p.1.dotInCurrentMode = v.dotInCurrentMode + 1 ∧ p.1.isFrameReady = v.isFrameReady) ∧
      (v.dotInCurrentMode + 1 ≥ DOTS_PER_MODE0 →
        p.1.currentLine = v.currentLine + 1 ∧ p.1.dotInCurrentMode = 0 ∧
        p.1.isFrameReady = v.isFrameReady ∧
        (v.currentLine + 1 > 143 → p.1.ppuMode = .mode1VerticalBlank) ∧
        (¬ v.currentLine + 1 > 143 → p.1.ppuMode = .mode2OamScan))) ∧
    (v.ppuMode = .mode1VerticalBlank →
      (¬ v.dotInCurrentMode + 1 ≥ DOTS_PER_MODE1_ROW →
        p.1.ppuMode = .mode1VerticalBlank ∧ p.1.currentLine = v.currentLine ∧
        p.1.dotInCurrentMode = v.dotInCurrentMode + 1 ∧ p.1.isFrameReady = v.isFrameReady) ∧
      (v.dotInCurrentMode + 1 ≥ DOTS_PER_MODE1_ROW →
        (v.currentLine + 1 > 153 →
          p.1.ppuMode = .mode2OamScan ∧ p.1.currentLine = 0 ∧
          p.1.dotInCurrentMode = 0 ∧ p.1.isFrameReady = true) ∧
        (¬ v.currentLine + 1 > 153 →
          p.1.ppuMode = .mode1VerticalBlank ∧ p.1.currentLine = v.currentLine + 1 ∧
          p.1.dotInCurrentMode = 0 ∧ p.1.isFrameReady = v.isFrameReady))) := by
  obtain ⟨p1, p2⟩ := p
  unfold Video.tick at h
  dsimp only at h
  cases hm : v.ppuMode
  case mode2OamScan =>
    rw [hm] at h
    dsimp only at h
    by_cases hd : v.dotInCurrentMode + 1 ≥ DOTS_PER_MODE2
    · rw [if_pos hd] at h
      simp only [Option.bind_eq_bind, Option.some_bind, Option.some.injEq, Prod.mk.injEq] at h
      refine ⟨by rw [← h.1], by rw [← h.1], ?_, ?_, ?_, ?_⟩
      · intro _
        exact ⟨fun hlt => absurd hd hlt,
          fun _ => ⟨by rw [← h.1], by rw [← h.1], by rw [← h.1], by rw [← h.1]⟩⟩
      · intro hmm; exact absurd hmm (by decide)
      · intro hmm; exact absurd hmm (by decide)
      · intro hmm; exact absurd hmm (by decide)
    · rw [if_neg hd] at h
      simp only [Option.bind_eq_bind, Option.some_bind, Option.some.injEq, Prod.mk.injEq] at h
      refine ⟨by rw [← h.1], by rw [← h.1], ?_, ?_, ?_, ?_⟩
      · intro _
        exact ⟨fun _ => ⟨by rw [← h.1], by rw [← h.1], by rw [← h.1], by rw [← h.1]⟩,
          fun hge => absurd hge hd⟩
      · intro hmm; exact absurd hmm (by decide)
      · intro hmm; exact absurd hmm (by decide)
      · intro hmm; exact absurd hmm (by decide)
  case mode3DrawPixels =>
    rw [hm] at h
    dsimp only at h
    by_cases hd : v.dotInCurrentMode + 1 ≥ DOTS_PER_MODE3
    · rw [if_pos hd] at h
      rcases hds : Video.drawScanline
          ({ v with ppuMode := VideoMode.mode3DrawPixels, dotInCurrentMode := 0 } : Video)
          v.currentLine with _ | v2
      · rw [hds] at h
        simp at h
      · rw [hds] at h
        obtain ⟨fb, rfl⟩ := Video.drawScanline_shape _ _ _ hds
        simp only [Option.bind_eq_bind, Option.some_bind, Option.some.injEq, Prod.mk.injEq] at h
        refine ⟨by rw [← h.1], by rw [← h.1], ?_, ?_, ?_, ?_⟩
        · intro hmm; exact absurd hmm (by decide)
        · intro _
          exact ⟨fun hlt => absurd hd hlt,
            fun _ => ⟨by rw [← h.1], by rw [← h.1], by rw [← h.1], by rw [← h.1]⟩⟩
        · intro hmm; exact absurd hmm (by decide)
        · intro hmm; exact absurd hmm (by decide)
    · rw [if_neg hd] at h
      simp only [Option.bind_eq_bind, Option.some_bind, Option.some.injEq, Prod.mk.injEq] at h
      refine ⟨by rw [← h.1], by rw [← h.1], ?_, ?_, ?_, ?_⟩
      · intro hmm; exact absurd hmm (by decide)
      · intro _
        exact ⟨fun _ => ⟨by rw [← h.1], by rw [← h.1], by rw [← h.1], by rw [← h.1]⟩,
          fun hge => absurd hge hd⟩
      · intro hmm; exact absurd hmm (by decide)
      · intro hmm; exact absurd hmm (by decide)
  case mode0HorizontalBlank =>
    rw [hm] at h
    dsimp only at h
    by_cases hd : v.dotInCurrentMode + 1 ≥ DOTS_PER_MODE0
    · rw [if_pos hd] at h
      by_cases hline : v.currentLine + 1 > 143
      · rw [if_pos hline] at h
        simp only [Option.bind_eq_bind, Option.some_bind, Option.some.injEq, Prod.mk.injEq] at h
        refine ⟨by rw [← h.1], by rw [← h.1], ?_, ?_, ?_, ?_⟩
        · intro hmm; exact absurd hmm (by decide)
        · intro hmm; exact absurd hmm (by decide)
        · intro _
          refine ⟨fun hlt => absurd hd hlt, fun _ => ?_⟩
          exact ⟨by rw [← h.1], by rw [← h.1], by rw [← h.1],
            fun _ => by rw [← h.1], fun hnl => absurd hline hnl⟩
        · intro hmm; exact absurd hmm (by decide)
      · rw [if_neg hline] at h
        simp only [Option.bind_eq_bind, Option.some_bind, Option.some.injEq, Prod.mk.injEq] at h
        refine ⟨by rw [← h.1], by rw [← h.1], ?_, ?_, ?_, ?_⟩
        · intro hmm; exact absurd hmm (by decide)
        · intro hmm; exact absurd hmm (by decide)
        · intro _
          refine ⟨fun hlt => absurd hd hlt, fun _ => ?_⟩
          exact ⟨by rw [← h.1], by rw [← h.1], by rw [← h.1],
            fun hl => absurd hl hline, fun _ => by rw [← h.1]⟩
        · intro hmm; exact absurd hmm (by decide)
    · rw [if_neg hd] at h
      simp only [Option.bind_eq_bind, Option.some_bind, Option.some.injEq, Prod.mk.injEq] at h
      refine ⟨by rw [← h.1], by rw [← h.1], ?_, ?_, ?_, ?_⟩
      · intro hmm; exact absurd hmm (by decide)
      · intro hmm; exact absurd hmm (by decide)
      · intro _
        exact ⟨fun _ => ⟨by rw [← h.1], by rw [← h.1], by rw [← h.1], by rw [← h.1]⟩,
          fun hge => absurd hge hd⟩
      · intro hmm; exact absurd hmm (by decide)
  case mode1VerticalBlank =>
    rw [hm] at h
    dsimp only at h
    by_cases hd : v.dotInCurrentMode + 1 ≥ DOTS_PER_MODE1_ROW
    · rw [if_pos hd] at h
      by_cases hline : v.currentLine + 1 > 153
      · rw [if_pos hline] at h
        simp only [Option.bind_eq_bind, Option.some_bind, Option.some.injEq, Prod.mk.injEq] at h
        refine ⟨by rw [← h.1], by rw [← h.1], ?_, ?_, ?_, ?_⟩
        · intro hmm; exact absurd hmm (by decide)
        · intro hmm; exact absurd hmm (by decide)
        · intro hmm; exact absurd hmm (by decide)
        · intro _
          refine ⟨fun hlt => absurd hd hlt, fun _ => ?_⟩
          exact ⟨fun _ => ⟨by rw [← h.1], by rw [← h.1], by rw [← h.1], by rw [← h.1]⟩,
            fun hnl => absurd hline hnl⟩
      · rw [if_neg hline] at h
        simp only [Option.bind_eq_bind, Option.some_bind, Option.some.injEq, Prod.mk.injEq] at h
        refine ⟨by rw [← h.1], by rw [← h.1], ?_, ?_, ?_, ?_⟩
        · intro hmm; exact absurd hmm (by decide)
        · intro hmm; exact absurd hmm (by decide)
        · intro hmm; exact absurd hmm (by decide)
        · intro _
          refine ⟨fun hlt => absurd hd hlt, fun _ => ?_⟩
          exact ⟨fun hl => absurd hl hline,
            fun _ => ⟨by rw [← h.1], by rw [← h.1], by rw [← h.1], by rw [← h.1]⟩⟩
    · rw [if_neg hd] at h
      simp only [Option.bind_eq_bind, Option.some_bind, Option.some.injEq, Prod.mk.injEq] at h
      refine ⟨by rw [← h.1], by rw [← h.1], ?_, ?_, ?_, ?_⟩
      · intro hmm; exact absurd hmm (by decide)
      · intro hmm; exact absurd hmm (by decide)
      · intro hmm; exact absurd hmm (by decide)
      · intro _
        exact ⟨fun _ => ⟨by rw [← h.1], by rw [← h.1], by rw [← h.1], by rw [← h.1]⟩,
          fun hge => absurd hge hd⟩

theorem tickN_succ_back : ∀ (n : Nat) (v : Video),
    tickN (n + 1) v = (tickN n v).bind (fun w => (w.tick).map (fun q => q.1)) := by
  intro n
  induction n with
  | zero =>
      intro v
      rcases h : v.tick with _ | ⟨w, ints⟩
      · simp [tickN, h]
      · simp [tickN, h]
  | succ n ih =>
      intro v
      rcases h : v.tick with _ | ⟨w, ints⟩
      · simp [tickN, h]
      · simp only [tickN, h, Option.some_bind', Option.bind_eq_bind, Option.some_bind]
        exact ih w

/-- C7 (amended): with the LCD on and the window disabled, from the top of a
frame the PPU FSM follows the 80/172/204-dot line schedule for lines 0..143
and 456-dot rows for VBlank lines 144..153, and after exactly 70,224 ticks
it is back at OamScan line 0 dot 0 with the frame-ready latch set, the latch
keeping its initial value at every earlier tick.  The amendment: the frame
only completes when the window is off — otherwise the Draw→HBlank
transition hits the unimplemented window renderer. -/
theorem c7_frame_timing (v0 : Video)
    (hwin : ¬ getBit v0.lcdControl 5 = true)
    (hm0 : v0.ppuMode = .mode2OamScan) (hl0 : v0.currentLine = 0)
    (hd0 : v0.dotInCurrentMode = 0) :
    ∀ k, k ≤ 70224 →
      ∃ v, tickN k v0 = some v ∧
        v.lcdControl = v0.lcdControl ∧ v.lyc = v0.lyc ∧
        (k < 70224 → v.fsm = frameSpec k ∧ v.isFrameReady = v0.isFrameReady) ∧
        (k = 70224 → v.fsm = (.mode2OamScan, 0, 0) ∧ v.isFrameReady = true) := by
  intro k
  induction k with
  | zero =>
      intro _
      refine ⟨v0, rfl, rfl, rfl, fun _ => ⟨?_, rfl⟩, fun h70 => absurd h70 (by omega)⟩
      unfold Video.fsm
      rw [hm0, hl0, hd0]
      decide
  | succ k ih =>
      intro hk1
      obtain ⟨v, htk, hlcdc, hlyc, hlt, _⟩ := ih (by omega)
      have hfsm := (hlt (by omega)).1
      have hready := (hlt (by omega)).2
      have hsome := Video.tick_isSome v (by rw [hlcdc]; exact hwin)
      rcases ht : v.tick with _ | p
      · rw [ht] at hsome
        exact absurd hsome (by simp)
      · have hstep := Video.tick_step v p ht
        have hnext : tickN (k + 1) v0 = some p.1 := by
          rw [tickN_succ_back k v0, htk]
          simp only [Option.some_bind', ht, Option.map_some']
        have e2 : DOTS_PER_MODE2 = 80 := rfl
        have e3 : DOTS_PER_MODE3 = 172 := rfl
        have e0 : DOTS_PER_MODE0 = 204 := rfl
        have e1 : DOTS_PER_MODE1_ROW = 456 := rfl
        have hkey : (k + 1 < 70224 →
              p.1.fsm = frameSpec (k + 1) ∧ p.1.isFrameReady = v0.isFrameReady) ∧
            (k + 1 = 70224 →
              p.1.fsm = (VideoMode.mode2OamScan, 0, 0) ∧ p.1.isFrameReady = true) := by
          by_cases hk65 : k < 65664
          · by_cases hrA : k % 456 < 80
            · have hspec : frameSpec k = (VideoMode.mode2OamScan, k / 456, k % 456) := by
                unfold frameSpec
                rw [if_pos hk65]
                dsimp only
                rw [if_pos hrA]
              have hpm : v.ppuMode = VideoMode.mode2OamScan := by
                rw [show v.ppuMode = v.fsm.1 from rfl, hfsm, hspec]
              have hcl : v.currentLine = k / 456 := by
                rw [show v.currentLine = v.fsm.2.1 from rfl, hfsm, hspec]
              have hdot : v.dotInCurrentMode = k % 456 := by
                rw [show v.dotInCurrentMode = v.fsm.2.2 from rfl, hfsm, hspec]
              have harm := hstep.2.2.1 hpm
              by_cases htr : v.dotInCurrentMode + 1 ≥ DOTS_PER_MODE2
              · obtain ⟨hpm', hcl', hdot', hrdy'⟩ := harm.2 htr
                rw [hdot, e2] at htr
                refine ⟨fun _ => ⟨?_, hrdy'.trans hready⟩, fun h70 => absurd h70 (by omega)⟩
                unfold Video.fsm
                rw [hpm', hcl', hdot', hcl]
                unfold frameSpec
                rw [if_pos (by omega)]
                dsimp only
                rw [if_neg (by omega), if_pos (by omega)]
                simp only [Prod.mk.injEq]
                exact ⟨trivial, by omega, by omega⟩
              · obtain ⟨hpm', hcl', hdot', hrdy'⟩ := harm.1 htr
                rw [hdot, e2] at htr
                refine ⟨fun _ => ⟨?_, hrdy'.trans hready⟩, fun h70 => absurd h70 (by omega)⟩
                unfold Video.fsm
                rw [hpm', hcl', hdot', hcl, hdot]
                unfold frameSpec
                rw [if_pos (by omega)]
                dsimp only
                rw [if_pos (by omega)]
                simp only [Prod.mk.injEq]
                exact ⟨trivial, by omega, by omega⟩
            · by_cases hrB : k % 456 < 252
              · have hspec : frameSpec k = (VideoMode.mode3DrawPixels, k / 456, k % 456 - 80) := by
                  unfold frameSpec
                  rw [if_pos hk65]
                  dsimp only
                  rw [if_neg hrA, if_pos hrB]
                have hpm : v.ppuMode = VideoMode.mode3DrawPixels := by
                  rw [show v.ppuMode = v.fsm.1 from rfl, hfsm, hspec]
                have hcl : v.currentLine = k / 456 := by
                  rw [show v.currentLine = v.fsm.2.1 from rfl, hfsm, hspec]
                have hdot : v.dotInCurrentMode = k % 456 - 80 := by
                  rw [show v.dotInCurrentMode = v.fsm.2.2 from rfl, hfsm, hspec]
                have harm := hstep.2.2.2.1 hpm
                by_cases htr : v.dotInCurrentMode + 1 ≥ DOTS_PER_MODE3
                · obtain ⟨hpm', hcl', hdot', hrdy'⟩ := harm.2 htr
                  rw [hdot, e3] at htr
                  refine ⟨fun _ => ⟨?_, hrdy'.trans hready⟩, fun h70 => absurd h70 (by omega)⟩
                  unfold Video.fsm
                  rw [hpm', hcl', hdot', hcl]
                  unfold frameSpec
                  rw [if_pos (by omega)]
                  dsimp only
                  rw [if_neg (by omega), if_neg (by omega)]
                  simp only [Prod.mk.injEq]
                  exact ⟨trivial, by omega, by omega⟩
                · obtain ⟨hpm', hcl', hdot', hrdy'⟩ := harm.1 htr
                  rw [hdot, e3] at htr
                  refine ⟨fun _ => ⟨?_, hrdy'.trans hready⟩, fun h70 => absurd h70 (by omega)⟩
                  unfold Video.fsm
                  rw [hpm', hcl', hdot', hcl, hdot]
                  unfold frameSpec
                  rw [if_pos (by omega)]
                  dsimp only
                  rw [if_neg (by omega), if_pos (by omega)]
                  simp only [Prod.mk.injEq]
                  exact ⟨trivial, by omega, by omega⟩
              · have hspec : frameSpec k
                    = (VideoMode.mode0HorizontalBlank, k / 456, k % 456 - 252) := by
                  unfold frameSpec
                  rw [if_pos hk65]
                  dsimp only
                  rw [if_neg hrA, if_neg hrB]
                have hpm : v.ppuMode = VideoMode.mode0HorizontalBlank := by
                  rw [show v.ppuMode = v.fsm.1 from rfl, hfsm, hspec]
                have hcl : v.currentLine = k / 456 := by
                  rw [show v.currentLine = v.fsm.2.1 from rfl, hfsm, hspec]
                have hdot : v.dotInCurrentMode = k % 456 - 252 := by
                  rw [show v.dotInCurrentMode = v.fsm.2.2 from rfl, hfsm, hspec]
                have harm := hstep.2.2.2.2.1 hpm
                by_cases htr : v.dotInCurrentMode + 1 ≥ DOTS_PER_MODE0
                · obtain ⟨hcl', hdot', hrdy', hln1, hln2⟩ := harm.2 htr
                  rw [hdot, e0] at htr
                  by_cases hline : v.currentLine + 1 > 143
                  · have hpm' := hln1 hline
                    rw [hcl] at hline
                    refine ⟨fun _ => ⟨?_, hrdy'.trans hready⟩, fun h70 => absurd h70 (by omega)⟩
                    unfold Video.fsm
                    rw [hpm', hcl', hdot', hcl]
                    unfold frameSpec
                    rw [if_neg (by omega)]
                    simp only [Prod.mk.injEq]
                    exact ⟨trivial, by omega, by omega⟩
                  · have hpm' := hln2 hline
                    rw [hcl] at hline
                    refine ⟨fun _ => ⟨?_, hrdy'.trans hready⟩, fun h70 => absurd h70 (by omega)⟩
                    unfold Video.fsm
                    rw [hpm', hcl', hdot', hcl]
                    unfold frameSpec
                    rw [if_pos (by omega)]
                    dsimp only
                    rw [if_pos (by omega)]
                    simp only [Prod.mk.injEq]
                    exact ⟨trivial, by omega, by omega⟩
                · obtain ⟨hpm', hcl', hdot', hrdy'⟩ := harm.1 htr
                  rw [hdot, e0] at htr
                  refine ⟨fun _ => ⟨?_, hrdy'.trans hready⟩, fun h70 => absurd h70 (by omega)⟩
                  unfold Video.fsm
                  rw [hpm', hcl', hdot', hcl, hdot]
                  unfold frameSpec
                  rw [if_pos (by omega)]
                  dsimp only
                  rw [if_neg (by omega), if_neg (by omega)]
                  simp only [Prod.mk.injEq]
                  exact ⟨trivial, by omega, by omega⟩
          · have hspec : frameSpec k
                = (VideoMode.mode1VerticalBlank, 144 + (k - 65664) / 456, (k - 65664) % 456) := by
              unfold frameSpec
              rw [if_neg hk65]
            have hpm : v.ppuMode = VideoMode.mode1VerticalBlank := by
              rw [show v.ppuMode = v.fsm.1 from rfl, hfsm, hspec]
            have hcl : v.currentLine = 144 + (k - 65664) / 456 := by
              rw [show v.currentLine = v.fsm.2.1 from rfl, hfsm, hspec]
            have hdot : v.dotInCurrentMode = (k - 65664) % 456 := by
              rw [show v.dotInCurrentMode = v.fsm.2.2 from rfl, hfsm, hspec]
            have harm := hstep.2.2.2.2.2 hpm
            by_cases htr : v.dotInCurrentMode + 1 ≥ DOTS_PER_MODE1_ROW
            · obtain ⟨harmA, harmB⟩ := harm.2 htr
              rw [hdot, e1] at htr
              by_cases hline : v.currentLine + 1 > 153
              · obtain ⟨hpm', hcl', hdot', hrdy'⟩ := harmA hline
                rw [hcl] at hline
                refine ⟨fun hlt => absurd hlt (by omega), fun _ => ⟨?_, hrdy'⟩⟩
                unfold Video.fsm
                rw [hpm', hcl', hdot']
              · obtain ⟨hpm', hcl', hdot', hrdy'⟩ := harmB hline
                rw [hcl] at hline
                refine ⟨fun _ => ⟨?_, hrdy'.trans hready⟩, fun h70 => absurd h70 (by omega)⟩
                unfold Video.fsm
                rw [hpm', hcl', hdot', hcl]
                unfold frameSpec
                rw [if_neg (by omega)]
                simp only [Prod.mk.injEq]
                exact ⟨trivial, by omega, by omega⟩
            · obtain ⟨hpm', hcl', hdot', hrdy'⟩ := harm.1 htr
              rw [hdot, e1] at htr
              refine ⟨fun _ => ⟨?_, hrdy'.trans hready⟩, fun h70 => absurd h70 (by omega)⟩
              unfold Video.fsm
              rw [hpm', hcl', hdot', hcl, hdot]
              unfold frameSpec
              rw [if_neg (by omega)]
              simp only [Prod.mk.injEq]
              exact ⟨trivial, by omega, by omega⟩
        exact ⟨p.1, hnext, (hstep.1).trans hlcdc, (hstep.2.1).trans hlyc, hkey.1, hkey.2⟩

set_option maxRecDepth 1000000 in
/-- C7 counterexample: with the window bit set (LCDC = 0xA1) the very first
Draw→HBlank transition (tick 252) hits the `todo!` and no frame completes. -/
theorem c7_frame_timing_counterexample :
    (tickN 252 c7video).isSome = false ∧ getBit c7video.lcdControl 5 = true := by
  refine ⟨by decide, by decide⟩

/-- Witness for `c7_frame_timing`: the full 70,224-tick frame from
`c7vidOk` (LCDC = 0x81). -/
theorem c7_frame_timing_witness :
    (¬ getBit c7vidOk.lcdControl 5 = true ∧ c7vidOk.ppuMode = .mode2OamScan ∧
     c7vidOk.currentLine = 0 ∧ c7vidOk.dotInCurrentMode = 0 ∧ 70224 ≤ 70224) ∧
    (∃ v, tickN 70224 c7vidOk = some v ∧
      v.lcdControl = c7vidOk.lcdControl ∧ v.lyc = c7vidOk.lyc ∧
      (70224 < 70224 → v.fsm = frameSpec 70224 ∧ v.isFrameReady = c7vidOk.isFrameReady) ∧
      (70224 = 70224 → v.fsm = (.mode2OamScan, 0, 0) ∧ v.isFrameReady = true)) :=
  ⟨⟨by decide, by decide, by decide, by decide, by decide⟩,
   c7_frame_timing c7vidOk (by decide) (by decide) (by decide) (by decide) 70224 (by decide)⟩

end GB
